import Mathlib

/-!
Formal model of `symbol_resnext_ibn_a_w_d_v2.py` (IBN-Net ResNeXt symbol builder).

The Python file builds an MXNet symbolic computation graph.  We embed the
symbol universe as a list of `Node`s: creating a symbol appends a node and
returns its index, so a "symbol" is an index into the list.  The MXNet method
`Symbol._set_attr` mutates a node in place; we model it as an in-place
update of the node list, which faithfully captures the aliasing between the
`data` argument and the `shortcut` local of `residual_unit`.

Python-level failures of `resnext` itself are modelled in an `Except` monad:
the `assert(num_unit == num_stage)` statement, the `raise ValueError(...)`
for unsupported dataset strings, and Python `IndexError` from out-of-range
list subscripts.  Everything delegated to the external framework (shape
inference, training, auto-naming of anonymous symbols) is outside the model;
anonymous symbols keep `name = none`.
-/

/-- Explicit Python-level errors that `resnext` can raise. -/
inductive PyError where
  | assertionError
  | valueError (msg : String)
  | indexError
deriving Repr, DecidableEq

/-- Operator kinds used by the source file, with the attributes the source
passes.  Floating-point attributes (`eps`, `momentum`, dropout `p`,
`smooth_alpha`) are modelled as rationals; the source only stores them. -/
inductive Op where
  | var
  | batchNorm (fix_gamma : Bool) (eps : ℚ) (momentum : ℚ)
  | instanceNorm (eps : ℚ)
  | convolution (num_filter num_group : Nat) (kernel stride pad : Nat × Nat)
      (no_bias : Bool) (workspace : Nat)
  | activation (act_type : String)
  | splitOut (axis num_outputs index : Nat)
  | concat (dim : Nat)
  | pooling (global_pool : Bool) (kernel stride pad : Nat × Nat) (pool_type : String)
  | flatten
  | dropout (p : ℚ)
  | fullyConnected (num_hidden : Nat)
  | softmaxOutput (smooth_alpha : ℚ)
  | add
deriving Repr, DecidableEq

/-- A graph node: operator, input symbol ids, optional explicit name, and the
`mirror_stage` attribute that `residual_unit` may set via `_set_attr`. -/
structure Node where
  op : Op
  inputs : List Nat
  name : Option String
  mirror_stage : Bool := false
deriving Repr, DecidableEq

/-- The symbol universe: node id = position in the list. -/
abbrev Graph := List Node

/-- Creating a symbol: append a node, return (new graph, its id). -/
def addNode (g : Graph) (n : Node) : Graph × Nat := (g ++ [n], g.length)

/-- Python `sym._set_attr(mirror_stage="True")`: in-place update of one node. -/
def setMirror (g : Graph) (i : Nat) : Graph :=
  match g[i]? with
  | some n => g.set i { n with mirror_stage := true }
  | none => g

/-- The mutation-insensitive part of a node (everything except `mirror_stage`). -/
def sig (n : Node) : Op × List Nat × Option String := (n.op, n.inputs, n.name)

/-- Python list subscript `l[i]` (for the non-negative indices the source uses). -/
def getIdx (l : List Nat) (i : Nat) : Except PyError Nat :=
  match l[i]? with
  | some x => Except.ok x
  | none => Except.error PyError.indexError

/-- Literal `eps=2e-5`, used throughout the file. -/
def EPS : ℚ := 2 / 100000

/-- Literal `bn_mom=0.9`, the default momentum of `ibn_block` (the call sites of
`ibn_block` always use this default, even when the caller got a different
`bn_mom`). -/
def MOM9 : ℚ := 9 / 10

/-- Python `ibn_block(data, num_filter, name, eps, bn_mom)`: split the channel axis
in two, InstanceNorm on part 0, BatchNorm on part 1, Concat along channels.
The `num_filter` parameter is accepted and ignored, as in the source.  The
single Python `split` symbol with two outputs is modelled as two
output-selector nodes. -/
def ibn_block (data : Nat) (num_filter : Nat) (name : String) (eps : ℚ) (bn_mom : ℚ)
    (g : Graph) : Graph × Nat :=
  let (g, s0) := addNode g { op := .splitOut 1 2 0, inputs := [data], name := none }
  let (g, s1) := addNode g { op := .splitOut 1 2 1, inputs := [data], name := none }
  let (g, o1) := addNode g { op := .instanceNorm eps, inputs := [s0], name := some (name ++ "_in1") }
  let (g, o2) := addNode g { op := .batchNorm false eps bn_mom, inputs := [s1], name := some (name ++ "_bn1") }
  addNode g { op := .concat 1, inputs := [o1, o2], name := some (name ++ "_ibn1") }

/-- Python `residual_unit(data, num_filter, stride, dim_match, name, ibn, bottle_neck,
num_group, bn_mom, workspace, memonger)`, translated statement by statement
from the source (`int(num_filter*0.5)` becomes `num_filter / 2`). -/
def residual_unit (data : Nat) (num_filter : Nat) (stride : Nat × Nat) (dim_match : Bool)
    (name : String) (ibn : Bool) (bottle_neck : Bool) (num_group : Nat)
    (bn_mom : ℚ) (workspace : Nat) (memonger : Bool) (g : Graph) : Graph × Nat :=
  if bottle_neck then
    let ibn := if num_filter = 2048 then false else ibn
    let (g, _conv1) := addNode g { op := .convolution (num_filter / 2) 1 (1,1) (1,1) (0,0) true workspace,
                                   inputs := [data], name := some (name ++ "_conv1") }
    let (g, bn1) :=
      if ibn then ibn_block data (num_filter / 2) name EPS MOM9 g
      else addNode g { op := .batchNorm false EPS bn_mom, inputs := [data], name := some (name ++ "_bn1") }
    let (g, act1) := addNode g { op := .activation "relu", inputs := [bn1], name := some (name ++ "_relu1") }
    let (g, conv2) := addNode g { op := .convolution (num_filter / 2) num_group (3,3) stride (1,1) true workspace,
                                  inputs := [act1], name := some (name ++ "_conv2") }
    let (g, bn2) := addNode g { op := .batchNorm false EPS bn_mom, inputs := [conv2], name := some (name ++ "_bn2") }
    let (g, act2) := addNode g { op := .activation "relu", inputs := [bn2], name := some (name ++ "_relu2") }
    let (g, conv3) := addNode g { op := .convolution num_filter 1 (1,1) (1,1) (0,0) true workspace,
                                  inputs := [act2], name := some (name ++ "_conv3") }
    let (g, bn3) := addNode g { op := .batchNorm false EPS bn_mom, inputs := [conv3], name := some (name ++ "_bn3") }
    let (g, shortcut) :=
      if dim_match then (g, data)
      else if stride = (2,2) then
        let (g, sc) := addNode g { op := .convolution num_filter 1 (3,3) stride (1,1) true workspace,
                                   inputs := [data], name := some (name ++ "_sc") }
        addNode g { op := .batchNorm false EPS bn_mom, inputs := [sc], name := some (name ++ "_sc_bn") }
      else
        let (g, sc) := addNode g { op := .convolution num_filter 1 (1,1) stride (0,0) true workspace,
                                   inputs := [data], name := some (name ++ "_sc") }
        addNode g { op := .batchNorm false EPS bn_mom, inputs := [sc], name := some (name ++ "_sc_bn") }
    let g := if memonger then setMirror g shortcut else g
    let (g, eltwise) := addNode g { op := .add, inputs := [bn3, shortcut], name := none }
    addNode g { op := .activation "relu", inputs := [eltwise], name := some (name ++ "_relu") }
  else
    let (g, conv1) := addNode g { op := .convolution num_filter 1 (3,3) stride (1,1) true workspace,
                                  inputs := [data], name := some (name ++ "_conv1") }
    let (g, bn1) := addNode g { op := .batchNorm false EPS bn_mom, inputs := [conv1], name := some (name ++ "_bn1") }
    let (g, act1) := addNode g { op := .activation "relu", inputs := [bn1], name := some (name ++ "_relu1") }
    let (g, conv2) := addNode g { op := .convolution num_filter 1 (3,3) (1,1) (1,1) true workspace,
                                  inputs := [act1], name := some (name ++ "_conv2") }
    let (g, bn2) := addNode g { op := .batchNorm false EPS bn_mom, inputs := [conv2], name := some (name ++ "_bn2") }
    let (g, shortcut) :=
      if dim_match then (g, data)
      else
        let (g, sc) := addNode g { op := .convolution num_filter 1 (1,1) stride (0,0) true workspace,
                                   inputs := [data], name := some (name ++ "_sc") }
        addNode g { op := .batchNorm false EPS bn_mom, inputs := [sc], name := some (name ++ "_sc_bn") }
    let g := if memonger then setMirror g shortcut else g
    let (g, eltwise) := addNode g { op := .add, inputs := [bn2, shortcut], name := none }
    addNode g { op := .activation "relu", inputs := [eltwise], name := some (name ++ "_relu") }

/-- Python format "stage%d_unit%d" applied to a stage and a unit number. -/
def unitName (i j : Nat) : String := "stage" ++ toString i ++ "_unit" ++ toString j

/-- The input stem shared verbatim by the `imagenet`, `vggface` and `msface`
branches of `resnext` (the three branch bodies are character-identical in the
source).  `data` is the id of the `bn_data` symbol.  Note `conv02` takes
`data`, not `relu01`, exactly as in the source. -/
def stemLarge (filter_list : List Nat) (bn_mom : ℚ) (workspace : Nat)
    (g : Graph) (data : Nat) : Except PyError (Graph × Nat) :=
  match getIdx filter_list 0 with
  | .error e => .error e
  | .ok f0 =>
    let (g, c01) := addNode g { op := .convolution f0 1 (3,3) (1,1) (1,1) true workspace,
                                inputs := [data], name := some "conv01" }
    let (g, b01) := addNode g { op := .batchNorm false EPS bn_mom, inputs := [c01], name := some "bn01" }
    let (g, _r01) := addNode g { op := .activation "relu", inputs := [b01], name := some "relu01" }
    let (g, c02) := addNode g { op := .convolution f0 1 (3,3) (1,1) (1,1) true workspace,
                                inputs := [data], name := some "conv02" }
    let (g, b02) := addNode g { op := .batchNorm false EPS bn_mom, inputs := [c02], name := some "bn02" }
    let (g, r02) := addNode g { op := .activation "relu", inputs := [b02], name := some "relu02" }
    let (g, c03) := addNode g { op := .convolution f0 1 (3,3) (2,2) (1,1) true workspace,
                                inputs := [r02], name := some "conv03" }
    let (g, b03) := addNode g { op := .batchNorm false EPS bn_mom, inputs := [c03], name := some "bn03" }
    let (g, r03) := addNode g { op := .activation "relu", inputs := [b03], name := some "relu03" }
    .ok (addNode g { op := .pooling false (3,3) (2,2) (1,1) "max", inputs := [r03], name := none })

/-- Lines 144-198 of the source: the `data` variable, `bn_data`, and the
dataset-type dispatch, ending in `raise ValueError(...)` for anything else. -/
def stem (data_type : String) (filter_list : List Nat) (bn_mom : ℚ) (workspace : Nat) :
    Except PyError (Graph × Nat) :=
  let g : Graph := []
  let (g, data0) := addNode g { op := .var, inputs := [], name := some "data" }
  let (g, data) := addNode g { op := .batchNorm true EPS bn_mom, inputs := [data0], name := some "bn_data" }
  if data_type = "cifar10" then
    match getIdx filter_list 0 with
    | .error e => .error e
    | .ok f0 =>
      .ok (addNode g { op := .convolution f0 1 (3,3) (1,1) (1,1) true workspace,
                       inputs := [data], name := some "conv0" })
  else if data_type = "imagenet" then stemLarge filter_list bn_mom workspace g data
  else if data_type = "vggface" then stemLarge filter_list bn_mom workspace g data
  else if data_type = "msface" then stemLarge filter_list bn_mom workspace g data
  else .error (.valueError ("do not support " ++ data_type ++ " yet"))

/-- One iteration of the inner `for j in range(units[i]-1)` loop; the source
re-evaluates `filter_list[i+1]` on every iteration. -/
def innerStep (filter_list : List Nat) (i : Nat) (ibn bottle_neck : Bool) (num_group : Nat)
    (bn_mom : ℚ) (workspace : Nat) (memonger : Bool) (bg : Graph × Nat) (j : Nat) :
    Except PyError (Graph × Nat) :=
  match getIdx filter_list (i+1) with
  | .error e => .error e
  | .ok fi => .ok (residual_unit bg.2 fi (1,1) true (unitName (i+1) (j+2)) ibn bottle_neck
      num_group bn_mom workspace memonger bg.1)

/-- One iteration of the outer `for i in range(num_stage)` loop. -/
def stageStep (units filter_list : List Nat) (ibn bottle_neck : Bool) (num_group : Nat)
    (bn_mom : ℚ) (workspace : Nat) (memonger : Bool) (bg : Graph × Nat) (i : Nat) :
    Except PyError (Graph × Nat) :=
  match getIdx filter_list (i+1) with
  | .error e => .error e
  | .ok fi =>
    let bg1 := residual_unit bg.2 fi (if i = 0 then (1,1) else (2,2)) false (unitName (i+1) 1)
      ibn bottle_neck num_group bn_mom workspace memonger bg.1
    match getIdx units i with
    | .error e => .error e
    | .ok ui =>
      (List.range (ui - 1)).foldlM
        (innerStep filter_list i ibn bottle_neck num_group bn_mom workspace memonger) bg1

/-- Lines 206-212 of the source: global average pooling, flatten, dropout,
fully-connected classifier, label-smoothed softmax. -/
def headApply (bg : Graph × Nat) ( num_class : Nat) (drop_out : ℚ) : Graph × Nat :=
  let (g, pool1) := addNode bg.1 { op := .pooling true (7,7) (1,1) (0,0) "avg",
                                   inputs := [bg.2], name := some "pool1" }
  let (g, flat) := addNode g { op := .flatten, inputs := [pool1], name := none }
  let (g, dp) := addNode g { op := .dropout drop_out, inputs := [flat], name := some "dp1" }
  let (g, fc1) := addNode g { op := .fullyConnected num_class, inputs := [dp], name := some "fc1" }
  addNode g { op := .softmaxOutput (1/10), inputs := [fc1], name := some "softmax" }

/-- Python `resnext(units, num_stage, filter_list, num_class, num_group, data_type,
drop_out, ibn, bottle_neck, bn_mom, workspace, memonger)`.  The leading
`assert(num_unit == num_stage)` is the first statement executed. -/
def resnext (units : List Nat) (num_stage : Nat) (filter_list : List Nat)
    ( num_class num_group : Nat) (data_type : String) (drop_out : ℚ)
    (ibn bottle_neck : Bool) (bn_mom : ℚ) (workspace : Nat) (memonger : Bool) :
    Except PyError (Graph × Nat) :=
  if units.length = num_stage then
    match stem data_type filter_list bn_mom workspace with
    | .error e => .error e
    | .ok bg =>
      match (List.range num_stage).foldlM
          (stageStep units filter_list ibn bottle_neck num_group bn_mom workspace memonger) bg with
      | .error e => .error e
      | .ok bg2 => .ok (headApply bg2 num_class drop_out)
  else .error .assertionError

deriving instance DecidableEq for Except

/-! ### Basic graph lemmas -/

theorem setMirror_length (g : Graph) (i : Nat) : (setMirror g i).length = g.length := by
  unfold setMirror
  cases h : g[i]? <;> simp

theorem getElem?_setMirror_ne (g : Graph) {i j : Nat} (h : i ≠ j) :
    (setMirror g i)[j]? = g[j]? := by
  unfold setMirror
  cases hg : g[i]? <;> simp [List.getElem?_set_ne h]

theorem getElem?_setMirror_self (g : Graph) (i : Nat) :
    (setMirror g i)[i]? = (g[i]?).map (fun n => { n with mirror_stage := true }) := by
  unfold setMirror
  cases hg : g[i]?
  · simp [hg]
  · have hi : i < g.length := by
      rcases List.getElem?_eq_some_iff.mp hg with ⟨h, _⟩
      exact h
    simp [List.getElem?_set_self hi, hg]

theorem sig_setMirror (g : Graph) (i j : Nat) :
    ((setMirror g i)[j]?).map sig = (g[j]?).map sig := by
  by_cases h : i = j
  · subst h
    rw [getElem?_setMirror_self]
    cases g[i]? <;> simp [sig]
  · rw [getElem?_setMirror_ne g h]

theorem setMirror_append (l₁ l₂ : Graph) {i : Nat} (h : i < l₁.length) :
    setMirror l₁ i ++ l₂ = setMirror (l₁ ++ l₂) i := by
  unfold setMirror
  rw [List.getElem?_append_left h]
  cases hg : l₁[i]?
  · simp [List.getElem?_eq_none_iff] at hg
    omega
  · simp [List.set_append_left _ _ h]

theorem getq_append {α : Type} (g l : List α) (k : Nat) : (g ++ l)[g.length + k]? = l[k]? := by
  rw [List.getElem?_append_right (Nat.le_add_right _ _)]
  simp

/-- No node of `g` lists `x` among its inputs. -/
def notConsumed (g : Graph) (x : Nat) : Prop := ∀ n ∈ g, x ∉ n.inputs

instance (g : Graph) (x : Nat) : Decidable (notConsumed g x) := by
  unfold notConsumed; infer_instance

/-- Every input of every node points at an existing (earlier-created) node. -/
def closedGraph (g : Graph) : Prop := ∀ n ∈ g, ∀ y ∈ n.inputs, y < g.length

instance (g : Graph) : Decidable (closedGraph g) := by
  unfold closedGraph; infer_instance

theorem notConsumed_setMirror (g : Graph) (i x : Nat) (h : notConsumed g x) :
    notConsumed (setMirror g i) x := by
  unfold setMirror
  cases hg : g[i]?
  · exact h
  · intro n hn
    rcases List.mem_or_eq_of_mem_set hn with hmem | rfl
    · exact h n hmem
    · have hv := h _ (List.getElem?_mem hg)
      simpa using hv

/-! ### Canonical "appended nodes" equations for the builders -/

/-- Nodes appended by `ibn_block`; `base` is the id of the first split node. -/
def ibnNodes (data : Nat) (name : String) (eps bn_mom : ℚ) (base : Nat) : List Node :=
  [{ op := .splitOut 1 2 0, inputs := [data], name := none },
   { op := .splitOut 1 2 1, inputs := [data], name := none },
   { op := .instanceNorm eps, inputs := [base], name := some (name ++ "_in1") },
   { op := .batchNorm false eps bn_mom, inputs := [base+1], name := some (name ++ "_bn1") },
   { op := .concat 1, inputs := [base+2, base+3], name := some (name ++ "_ibn1") }]

theorem ibn_eq (data num_filter : Nat) (name : String) (eps bn_mom : ℚ) (g : Graph) :
    ibn_block data num_filter name eps bn_mom g =
      (g ++ ibnNodes data name eps bn_mom g.length, g.length + 4) := by
  simp [ibn_block, ibnNodes, addNode, Nat.add_assoc]

/-- The effective ibn flag of a bottleneck unit (`num_filter == 2048` turns it off). -/
def ieEff (num_filter : Nat) (ibn : Bool) : Bool := if num_filter = 2048 then false else ibn

/-- Offset (from the first node of the unit) of the output of the first
normalization of a bottleneck unit: the ibn concat (5) or the plain bn1 (1). -/
def ibnOff (ie : Bool) : Nat := if ie then 5 else 1

/-- Nodes appended by the bottleneck branch of `residual_unit`; `base` is the
id of `conv1`, `ie` the effective ibn flag.  The `mirror_stage` mutation is
not part of this list (see `ru_eq_bt`). -/
def ruNodesBt (data num_filter : Nat) (stride : Nat × Nat) (dim_match : Bool) (name : String)
    (ie : Bool) (num_group : Nat) (bn_mom : ℚ) (workspace : Nat) (base : Nat) : List Node :=
  let k := ibnOff ie
  { op := .convolution (num_filter / 2) 1 (1,1) (1,1) (0,0) true workspace,
    inputs := [data], name := some (name ++ "_conv1") } ::
  ((if ie then ibnNodes data name EPS MOM9 (base+1)
    else [{ op := .batchNorm false EPS bn_mom, inputs := [data], name := some (name ++ "_bn1") }]) ++
   ([{ op := .activation "relu", inputs := [base+k], name := some (name ++ "_relu1") },
     { op := .convolution (num_filter / 2) num_group (3,3) stride (1,1) true workspace,
       inputs := [base+k+1], name := some (name ++ "_conv2") },
     { op := .batchNorm false EPS bn_mom, inputs := [base+k+2], name := some (name ++ "_bn2") },
     { op := .activation "relu", inputs := [base+k+3], name := some (name ++ "_relu2") },
     { op := .convolution num_filter 1 (1,1) (1,1) (0,0) true workspace,
       inputs := [base+k+4], name := some (name ++ "_conv3") },
     { op := .batchNorm false EPS bn_mom, inputs := [base+k+5], name := some (name ++ "_bn3") }] ++
    (if dim_match then
      [{ op := .add, inputs := [base+k+6, data], name := none },
       { op := .activation "relu", inputs := [base+k+7], name := some (name ++ "_relu") }]
     else
      [{ op := .convolution num_filter 1 (if stride = (2,2) then (3,3) else (1,1)) stride
           (if stride = (2,2) then (1,1) else (0,0)) true workspace,
         inputs := [data], name := some (name ++ "_sc") },
       { op := .batchNorm false EPS bn_mom, inputs := [base+k+7], name := some (name ++ "_sc_bn") },
       { op := .add, inputs := [base+k+6, base+k+8], name := none },
       { op := .activation "relu", inputs := [base+k+9], name := some (name ++ "_relu") }])))

/-- Nodes appended by the non-bottleneck branch of `residual_unit`. -/
def ruNodesNb (data num_filter : Nat) (stride : Nat × Nat) (dim_match : Bool) (name : String)
    (bn_mom : ℚ) (workspace : Nat) (base : Nat) : List Node :=
  [{ op := .convolution num_filter 1 (3,3) stride (1,1) true workspace,
     inputs := [data], name := some (name ++ "_conv1") },
   { op := .batchNorm false EPS bn_mom, inputs := [base], name := some (name ++ "_bn1") },
   { op := .activation "relu", inputs := [base+1], name := some (name ++ "_relu1") },
   { op := .convolution num_filter 1 (3,3) (1,1) (1,1) true workspace,
     inputs := [base+2], name := some (name ++ "_conv2") },
   { op := .batchNorm false EPS bn_mom, inputs := [base+3], name := some (name ++ "_bn2") }] ++
  (if dim_match then
    [{ op := .add, inputs := [base+4, data], name := none },
     { op := .activation "relu", inputs := [base+5], name := some (name ++ "_relu") }]
   else
    [{ op := .convolution num_filter 1 (1,1) stride (0,0) true workspace,
       inputs := [data], name := some (name ++ "_sc") },
     { op := .batchNorm false EPS bn_mom, inputs := [base+5], name := some (name ++ "_sc_bn") },
     { op := .add, inputs := [base+4, base+6], name := none },
     { op := .activation "relu", inputs := [base+7], name := some (name ++ "_relu") }])

theorem ru_eq_bt (data num_filter : Nat) (stride : Nat × Nat) (dim_match : Bool) (name : String)
    (ibn : Bool) (num_group : Nat) (bn_mom : ℚ) (workspace : Nat) (memonger : Bool) (g : Graph)
    (hd : data < g.length) :
    residual_unit data num_filter stride dim_match name ibn true num_group bn_mom workspace memonger g =
      ((if memonger then
          setMirror
            (g ++ ruNodesBt data num_filter stride dim_match name (ieEff num_filter ibn)
              num_group bn_mom workspace g.length)
            (if dim_match then data else g.length + ibnOff (ieEff num_filter ibn) + 8)
        else
          g ++ ruNodesBt data num_filter stride dim_match name (ieEff num_filter ibn)
            num_group bn_mom workspace g.length),
       g.length + ibnOff (ieEff num_filter ibn) + (if dim_match then 8 else 10)) := by
  by_cases h48 : num_filter = 2048 <;> cases ibn <;> cases dim_match <;> cases memonger <;>
    by_cases hst : stride = (2,2) <;>
  first
    | (simp [residual_unit, ibn_block, addNode, ruNodesBt, ibnNodes, ieEff, ibnOff, h48, hst,
        Nat.add_assoc]
       done)
    | (simp only [residual_unit, ibn_block, addNode, ruNodesBt, ibnNodes, ieEff, ibnOff, h48, hst,
         if_false, if_true, ite_true, ite_false, eq_self_iff_true, Bool.false_eq_true,
         Bool.true_eq_false, not_false_eq_true, List.length_append,
         List.length_cons, List.length_nil, List.singleton_append, List.cons_append,
         List.append_assoc, List.nil_append]
       rw [setMirror_append] <;>
         first
           | omega
           | (simp only [List.length_append, List.length_cons, List.length_nil]; omega)
           | simp [setMirror_length, Nat.add_assoc])

theorem ru_eq_nb (data num_filter : Nat) (stride : Nat × Nat) (dim_match : Bool) (name : String)
    (ibn : Bool) (num_group : Nat) (bn_mom : ℚ) (workspace : Nat) (memonger : Bool) (g : Graph)
    (hd : data < g.length) :
    residual_unit data num_filter stride dim_match name ibn false num_group bn_mom workspace memonger g =
      ((if memonger then
          setMirror (g ++ ruNodesNb data num_filter stride dim_match name bn_mom workspace g.length)
            (if dim_match then data else g.length + 6)
        else g ++ ruNodesNb data num_filter stride dim_match name bn_mom workspace g.length),
       g.length + (if dim_match then 6 else 8)) := by
  cases dim_match <;> cases memonger <;>
  first
    | (simp [residual_unit, addNode, ruNodesNb, Nat.add_assoc]
       done)
    | (simp only [residual_unit, addNode, ruNodesNb,
         if_false, if_true, ite_true, ite_false, eq_self_iff_true, Bool.false_eq_true,
         Bool.true_eq_false, not_false_eq_true, List.length_append,
         List.length_cons, List.length_nil, List.singleton_append, List.cons_append,
         List.append_assoc, List.nil_append]
       rw [setMirror_append] <;>
         first
           | omega
           | (simp only [List.length_append, List.length_cons, List.length_nil]; omega)
           | simp [setMirror_length, Nat.add_assoc])

/-! ### Derived facts about `residual_unit` -/

theorem ruNodesBt_length (data num_filter : Nat) (stride : Nat × Nat) (dim_match : Bool)
    (name : String) (ie : Bool) (num_group : Nat) (bn_mom : ℚ) (workspace : Nat) (base : Nat) :
    (ruNodesBt data num_filter stride dim_match name ie num_group bn_mom workspace base).length =
      ibnOff ie + (if dim_match then 9 else 11) := by
  cases ie <;> cases dim_match <;> simp [ruNodesBt, ibnNodes, ibnOff]

theorem ruNodesNb_length (data num_filter : Nat) (stride : Nat × Nat) (dim_match : Bool)
    (name : String) (bn_mom : ℚ) (workspace : Nat) (base : Nat) :
    (ruNodesNb data num_filter stride dim_match name bn_mom workspace base).length =
      if dim_match then 7 else 9 := by
  cases dim_match <;> simp [ruNodesNb]

theorem ruNodesBt_inputs (data num_filter : Nat) (stride : Nat × Nat) (dim_match : Bool)
    (name : String) (ie : Bool) (num_group : Nat) (bn_mom : ℚ) (workspace : Nat) (base : Nat)
    (y : Nat) :
    (∃ n ∈ ruNodesBt data num_filter stride dim_match name ie num_group bn_mom workspace base,
      y ∈ n.inputs) → y = data ∨ base + 1 ≤ y := by
  cases ie <;> cases dim_match <;> by_cases hst : stride = (2,2) <;>
    (intro h; simp [ruNodesBt, ibnNodes, ibnOff, hst] at h; omega)

theorem ruNodesNb_inputs (data num_filter : Nat) (stride : Nat × Nat) (dim_match : Bool)
    (name : String) (bn_mom : ℚ) (workspace : Nat) (base : Nat) (y : Nat) :
    (∃ n ∈ ruNodesNb data num_filter stride dim_match name bn_mom workspace base, y ∈ n.inputs) →
      y = data ∨ base ≤ y := by
  cases dim_match <;> (intro h; simp [ruNodesNb] at h; omega)

theorem ru_fst_length (data num_filter : Nat) (stride : Nat × Nat) (dim_match : Bool)
    (name : String) (ibn bottle_neck : Bool) (num_group : Nat) (bn_mom : ℚ) (workspace : Nat)
    (memonger : Bool) (g : Graph) (hd : data < g.length) :
    (residual_unit data num_filter stride dim_match name ibn bottle_neck num_group bn_mom
        workspace memonger g).1.length =
      g.length + (if bottle_neck then ibnOff (ieEff num_filter ibn) + (if dim_match then 9 else 11)
        else (if dim_match then 7 else 9)) := by
  cases bottle_neck
  · rw [ru_eq_nb data num_filter stride dim_match name ibn num_group bn_mom workspace memonger g hd]
    cases memonger <;>
      simp [setMirror_length, ruNodesNb_length]
  · rw [ru_eq_bt data num_filter stride dim_match name ibn num_group bn_mom workspace memonger g hd]
    cases memonger <;>
      simp [setMirror_length, ruNodesBt_length, Nat.add_assoc]

theorem ru_snd_eq (data num_filter : Nat) (stride : Nat × Nat) (dim_match : Bool)
    (name : String) (ibn bottle_neck : Bool) (num_group : Nat) (bn_mom : ℚ) (workspace : Nat)
    (memonger : Bool) (g : Graph) (hd : data < g.length) :
    (residual_unit data num_filter stride dim_match name ibn bottle_neck num_group bn_mom
        workspace memonger g).2 =
      g.length + (if bottle_neck then ibnOff (ieEff num_filter ibn) + (if dim_match then 8 else 10)
        else (if dim_match then 6 else 8)) := by
  cases bottle_neck
  · rw [ru_eq_nb data num_filter stride dim_match name ibn num_group bn_mom workspace memonger g hd]
    simp
  · rw [ru_eq_bt data num_filter stride dim_match name ibn num_group bn_mom workspace memonger g hd]
    simp [Nat.add_assoc]

theorem ru_sig_lo (data num_filter : Nat) (stride : Nat × Nat) (dim_match : Bool)
    (name : String) (ibn bottle_neck : Bool) (num_group : Nat) (bn_mom : ℚ) (workspace : Nat)
    (memonger : Bool) (g : Graph) (hd : data < g.length) (j : Nat) (hj : j < g.length) :
    (((residual_unit data num_filter stride dim_match name ibn bottle_neck num_group bn_mom
        workspace memonger g).1)[j]?).map sig = (g[j]?).map sig := by
  cases bottle_neck
  · rw [ru_eq_nb data num_filter stride dim_match name ibn num_group bn_mom workspace memonger g hd]
    cases memonger <;> simp only [ite_true, ite_false, Bool.false_eq_true, if_false, if_true]
    · rw [List.getElem?_append_left hj]
    · rw [sig_setMirror, List.getElem?_append_left hj]
  · rw [ru_eq_bt data num_filter stride dim_match name ibn num_group bn_mom workspace memonger g hd]
    cases memonger <;> simp only [ite_true, ite_false, Bool.false_eq_true, if_false, if_true]
    · rw [List.getElem?_append_left hj]
    · rw [sig_setMirror, List.getElem?_append_left hj]

theorem notConsumed_append (g L : Graph) (x : Nat) (h : notConsumed g x)
    (hL : ∀ n ∈ L, x ∉ n.inputs) : notConsumed (g ++ L) x := by
  intro n hn
  rcases List.mem_append.mp hn with hg | hl
  · exact h n hg
  · exact hL n hl

theorem ru_notConsumed (data num_filter : Nat) (stride : Nat × Nat) (dim_match : Bool)
    (name : String) (ibn bottle_neck : Bool) (num_group : Nat) (bn_mom : ℚ) (workspace : Nat)
    (memonger : Bool) (g : Graph) (hd : data < g.length) (x : Nat) (hx : x < g.length)
    (hxd : x ≠ data) (h : notConsumed g x) :
    notConsumed (residual_unit data num_filter stride dim_match name ibn bottle_neck num_group
      bn_mom workspace memonger g).1 x := by
  cases bottle_neck
  · rw [ru_eq_nb data num_filter stride dim_match name ibn num_group bn_mom workspace memonger g hd]
    have hbase : notConsumed
        (g ++ ruNodesNb data num_filter stride dim_match name bn_mom workspace g.length) x := by
      apply notConsumed_append g _ x h
      intro n hn hy
      rcases ruNodesNb_inputs data num_filter stride dim_match name bn_mom workspace g.length x
        ⟨n, hn, hy⟩ with h1 | h1
      · exact hxd h1
      · omega
    cases memonger <;> simp only [ite_true, ite_false, Bool.false_eq_true, if_false, if_true]
    · exact hbase
    · exact notConsumed_setMirror _ _ _ hbase
  · rw [ru_eq_bt data num_filter stride dim_match name ibn num_group bn_mom workspace memonger g hd]
    have hbase : notConsumed
        (g ++ ruNodesBt data num_filter stride dim_match name (ieEff num_filter ibn) num_group
          bn_mom workspace g.length) x := by
      apply notConsumed_append g _ x h
      intro n hn hy
      rcases ruNodesBt_inputs data num_filter stride dim_match name (ieEff num_filter ibn)
        num_group bn_mom workspace g.length x ⟨n, hn, hy⟩ with h1 | h1
      · exact hxd h1
      · omega
    cases memonger <;> simp only [ite_true, ite_false, Bool.false_eq_true, if_false, if_true]
    · exact hbase
    · exact notConsumed_setMirror _ _ _ hbase

/-! ### Head and stem equations -/

/-- The five classifier-head nodes; `b` is the final body symbol, `base` the
id of `pool1`. -/
def headNodes (b : Nat) ( num_class : Nat) (drop_out : ℚ) (base : Nat) : List Node :=
  [{ op := .pooling true (7,7) (1,1) (0,0) "avg", inputs := [b], name := some "pool1" },
   { op := .flatten, inputs := [base], name := none },
   { op := .dropout drop_out, inputs := [base+1], name := some "dp1" },
   { op := .fullyConnected num_class, inputs := [base+2], name := some "fc1" },
   { op := .softmaxOutput (1/10), inputs := [base+3], name := some "softmax" }]

theorem head_eq (g : Graph) (b num_class : Nat) (drop_out : ℚ) :
    headApply (g, b) num_class drop_out =
      (g ++ headNodes b num_class drop_out g.length, g.length + 4) := by
  simp [headApply, headNodes, addNode, Nat.add_assoc]

/-- The three stem nodes of the `cifar10` branch. -/
def stemCifarNodes (f0 : Nat) (bn_mom : ℚ) (workspace : Nat) : List Node :=
  [{ op := .var, inputs := [], name := some "data" },
   { op := .batchNorm true EPS bn_mom, inputs := [0], name := some "bn_data" },
   { op := .convolution f0 1 (3,3) (1,1) (1,1) true workspace, inputs := [1], name := some "conv0" }]

/-- The twelve stem nodes of the `imagenet`/`vggface`/`msface` branches.
Node 5 (`conv02`) takes node 1 (`bn_data`), not node 4 (`relu01`). -/
def stemLargeNodes (f0 : Nat) (bn_mom : ℚ) (workspace : Nat) : List Node :=
  [{ op := .var, inputs := [], name := some "data" },
   { op := .batchNorm true EPS bn_mom, inputs := [0], name := some "bn_data" },
   { op := .convolution f0 1 (3,3) (1,1) (1,1) true workspace, inputs := [1], name := some "conv01" },
   { op := .batchNorm false EPS bn_mom, inputs := [2], name := some "bn01" },
   { op := .activation "relu", inputs := [3], name := some "relu01" },
   { op := .convolution f0 1 (3,3) (1,1) (1,1) true workspace, inputs := [1], name := some "conv02" },
   { op := .batchNorm false EPS bn_mom, inputs := [5], name := some "bn02" },
   { op := .activation "relu", inputs := [6], name := some "relu02" },
   { op := .convolution f0 1 (3,3) (2,2) (1,1) true workspace, inputs := [7], name := some "conv03" },
   { op := .batchNorm false EPS bn_mom, inputs := [8], name := some "bn03" },
   { op := .activation "relu", inputs := [9], name := some "relu03" },
   { op := .pooling false (3,3) (2,2) (1,1) "max", inputs := [10], name := none }]

theorem stem_cifar_eq (filter_list : List Nat) (bn_mom : ℚ) (workspace : Nat) (f0 : Nat)
    (h : filter_list[0]? = some f0) :
    stem "cifar10" filter_list bn_mom workspace =
      .ok (stemCifarNodes f0 bn_mom workspace, 2) := by
  simp [stem, getIdx, h, addNode, stemCifarNodes]

theorem stem_large_eq (data_type : String) (filter_list : List Nat) (bn_mom : ℚ) (workspace : Nat)
    (f0 : Nat) (hdt : data_type = "imagenet" ∨ data_type = "vggface" ∨ data_type = "msface")
    (h : filter_list[0]? = some f0) :
    stem data_type filter_list bn_mom workspace =
      .ok (stemLargeNodes f0 bn_mom workspace, 11) := by
  rcases hdt with rfl | rfl | rfl <;>
    simp [stem, stemLarge, getIdx, h, addNode, stemLargeNodes]

theorem stem_unsupported (data_type : String) (filter_list : List Nat) (bn_mom : ℚ)
    (workspace : Nat) (h1 : data_type ≠ "cifar10") (h2 : data_type ≠ "imagenet")
    (h3 : data_type ≠ "vggface") (h4 : data_type ≠ "msface") :
    stem data_type filter_list bn_mom workspace =
      .error (.valueError ("do not support " ++ data_type ++ " yet")) := by
  simp [stem, h1, h2, h3, h4]

/-! ### Loop machinery -/

theorem except_foldlM_append {α : Type} (f : Graph × Nat → α → Except PyError (Graph × Nat))
    (l₁ l₂ : List α) (b : Graph × Nat) :
    (l₁ ++ l₂).foldlM f b = (l₁.foldlM f b) >>= (fun x => l₂.foldlM f x) := by
  induction l₁ generalizing b with
  | nil => simp
  | cons a l ih =>
    rw [List.cons_append, List.foldlM_cons, List.foldlM_cons]
    cases h : f b a <;> simp [h, ih]

theorem except_foldlM_inv {α : Type} (P : Graph × Nat → Prop)
    (f : Graph × Nat → α → Except PyError (Graph × Nat))
    (hf : ∀ b a b', P b → f b a = .ok b' → P b') :
    ∀ (l : List α) (b b' : Graph × Nat), P b → l.foldlM f b = .ok b' → P b' := by
  intro l
  induction l with
  | nil =>
    intro b b' hb h
    simp only [List.foldlM_nil] at h
    cases h
    exact hb
  | cons a l ih =>
    intro b b' hb h
    rw [List.foldlM_cons] at h
    cases hfa : f b a with
    | error e => rw [hfa] at h; simp [Bind.bind, Except.bind] at h
    | ok bmid =>
      rw [hfa] at h
      simp only [Bind.bind, Except.bind] at h
      exact ih bmid b' (hf b a bmid hb hfa) h

theorem except_foldlM_of_ok {α : Type} (f : Graph × Nat → α → Except PyError (Graph × Nat))
    (p : Graph × Nat → α → Graph × Nat) (hf : ∀ bg a, f bg a = .ok (p bg a)) :
    ∀ (l : List α) (bg : Graph × Nat), l.foldlM f bg = .ok (l.foldl p bg) := by
  intro l
  induction l with
  | nil => intro bg; rfl
  | cons a l ih =>
    intro bg
    rw [List.foldlM_cons, hf bg a]
    simp only [Bind.bind, Except.bind]
    rw [ih, List.foldl_cons]

theorem getIdx_ok_of_lt (l : List Nat) (i : Nat) (h : i < l.length) :
    getIdx l i = .ok (l.getD i 0) := by
  simp [getIdx, List.getElem?_eq_getElem h, List.getD_eq_getElem l 0 h]

/-! ### The unit schedule claimed by the spec (claim C2) -/

/-- Parameters of one `residual_unit` call. -/
structure UnitCfg where
  filt : Nat
  stride : Nat × Nat
  dim_match : Bool
  uname : String
deriving Repr, DecidableEq

/-- Apply `residual_unit` with the parameters of one configuration. -/
def applyUnit (ibn bottle_neck : Bool) (num_group : Nat) (bn_mom : ℚ) (workspace : Nat)
    (memonger : Bool) (bg : Graph × Nat) (c : UnitCfg) : Graph × Nat :=
  residual_unit bg.2 c.filt c.stride c.dim_match c.uname ibn bottle_neck num_group bn_mom
    workspace memonger bg.1

/-- The unit configurations the claim attributes to stage `i` (0-based): a
first unit with stride (1,1) for stage 0 and (2,2) otherwise, `dim_match`
false, then one stride-(1,1) `dim_match`-true unit per remaining count. -/
def stageCfgs (units filter_list : List Nat) (i : Nat) : List UnitCfg :=
  ⟨filter_list.getD (i+1) 0, (if i = 0 then (1,1) else (2,2)), false, unitName (i+1) 1⟩ ::
  (List.range (units.getD i 0 - 1)).map
    (fun j => ⟨filter_list.getD (i+1) 0, (1,1), true, unitName (i+1) (j+2)⟩)

/-- All unit configurations, stage by stage. -/
def unitSchedule (num_stage : Nat) (units filter_list : List Nat) : List UnitCfg :=
  (List.range num_stage).flatMap (stageCfgs units filter_list)

theorem unitSchedule_succ (n : Nat) (units filter_list : List Nat) :
    unitSchedule (n+1) units filter_list =
      unitSchedule n units filter_list ++ stageCfgs units filter_list n := by
  rw [unitSchedule, show n + 1 = Nat.succ n from rfl, List.range_succ]
  simp [unitSchedule]

theorem stageLoop_eq (units filter_list : List Nat) (ibn bottle_neck : Bool) (num_group : Nat)
    (bn_mom : ℚ) (workspace : Nat) (memonger : Bool) :
    ∀ (n : Nat) (bg : Graph × Nat), n ≤ units.length → n + 1 ≤ filter_list.length →
    (List.range n).foldlM
        (stageStep units filter_list ibn bottle_neck num_group bn_mom workspace memonger) bg =
      .ok (List.foldl (applyUnit ibn bottle_neck num_group bn_mom workspace memonger) bg
        (unitSchedule n units filter_list)) := by
  intro n
  induction n with
  | zero => intro bg _ _; simp [unitSchedule]; rfl
  | succ n ih =>
    intro bg hu hf
    rw [List.range_succ, except_foldlM_append,
      ih bg (Nat.le_of_succ_le hu) (Nat.le_of_succ_le hf)]
    simp only [Bind.bind, Except.bind]
    have hfl : getIdx filter_list (n+1) = .ok (filter_list.getD (n+1) 0) :=
      getIdx_ok_of_lt _ _ (by omega)
    have hun : getIdx units n = .ok (units.getD n 0) :=
      getIdx_ok_of_lt _ _ (by omega)
    simp only [List.foldlM_cons, List.foldlM_nil]
    simp only [stageStep, hfl, hun]
    rw [except_foldlM_of_ok
      (innerStep filter_list n ibn bottle_neck num_group bn_mom workspace memonger)
      (fun bg j => applyUnit ibn bottle_neck num_group bn_mom workspace memonger bg
        ⟨filter_list.getD (n+1) 0, (1,1), true, unitName (n+1) (j+2)⟩)
      (by intro bg j; simp [innerStep, hfl, applyUnit])]
    simp only [Bind.bind, Except.bind, pure]
    rw [unitSchedule_succ, List.foldl_append]
    simp [stageCfgs, List.foldl_map, applyUnit, Except.pure]

/-! ### Bounds for `residual_unit` results -/

theorem ru_len_ge (data num_filter : Nat) (stride : Nat × Nat) (dim_match : Bool)
    (name : String) (ibn bottle_neck : Bool) (num_group : Nat) (bn_mom : ℚ) (workspace : Nat)
    (memonger : Bool) (g : Graph) (hd : data < g.length) :
    g.length ≤ (residual_unit data num_filter stride dim_match name ibn bottle_neck num_group
      bn_mom workspace memonger g).1.length := by
  rw [ru_fst_length data num_filter stride dim_match name ibn bottle_neck num_group bn_mom
    workspace memonger g hd]
  exact Nat.le_add_right _ _

theorem ru_snd_ge (data num_filter : Nat) (stride : Nat × Nat) (dim_match : Bool)
    (name : String) (ibn bottle_neck : Bool) (num_group : Nat) (bn_mom : ℚ) (workspace : Nat)
    (memonger : Bool) (g : Graph) (hd : data < g.length) :
    g.length ≤ (residual_unit data num_filter stride dim_match name ibn bottle_neck num_group
      bn_mom workspace memonger g).2 := by
  rw [ru_snd_eq data num_filter stride dim_match name ibn bottle_neck num_group bn_mom
    workspace memonger g hd]
  exact Nat.le_add_right _ _

theorem ru_snd_lt (data num_filter : Nat) (stride : Nat × Nat) (dim_match : Bool)
    (name : String) (ibn bottle_neck : Bool) (num_group : Nat) (bn_mom : ℚ) (workspace : Nat)
    (memonger : Bool) (g : Graph) (hd : data < g.length) :
    (residual_unit data num_filter stride dim_match name ibn bottle_neck num_group
      bn_mom workspace memonger g).2 <
    (residual_unit data num_filter stride dim_match name ibn bottle_neck num_group
      bn_mom workspace memonger g).1.length := by
  rw [ru_snd_eq data num_filter stride dim_match name ibn bottle_neck num_group bn_mom
      workspace memonger g hd,
    ru_fst_length data num_filter stride dim_match name ibn bottle_neck num_group bn_mom
      workspace memonger g hd]
  cases bottle_neck <;> cases dim_match <;> simp <;> omega

/-! ### Decomposition of a successful `resnext` call -/

theorem resnext_ok_cases (units : List Nat) (num_stage : Nat) (filter_list : List Nat)
    ( num_class num_group : Nat) (data_type : String) (drop_out : ℚ) (ibn bottle_neck : Bool)
    (bn_mom : ℚ) (workspace : Nat) (memonger : Bool) (g : Graph) (r : Nat)
    (h : resnext units num_stage filter_list num_class num_group data_type drop_out ibn
      bottle_neck bn_mom workspace memonger = .ok (g, r)) :
    units.length = num_stage ∧
    ∃ bg0 g2 b2, stem data_type filter_list bn_mom workspace = .ok bg0 ∧
      (List.range num_stage).foldlM
        (stageStep units filter_list ibn bottle_neck num_group bn_mom workspace memonger) bg0 =
        .ok (g2, b2) ∧
      g = g2 ++ headNodes b2 num_class drop_out g2.length ∧ r = g2.length + 4 := by
  have hlen : units.length = num_stage := by
    by_contra hne
    rw [resnext, if_neg hne] at h
    exact absurd h (by simp)
  refine ⟨hlen, ?_⟩
  rw [resnext, if_pos hlen] at h
  split at h
  next e heq => exact absurd h (by simp)
  next bg0 heq =>
    split at h
    next e2 heq2 => exact absurd h (by simp)
    next bg2 heq2 =>
      simp only [Except.ok.injEq] at h
      cases bg2 with
      | mk g2 b2 =>
        rw [head_eq] at h
        simp only [Prod.mk.injEq] at h
        exact ⟨bg0, g2, b2, heq, heq2, h.1.symm, h.2.symm⟩

/-! ### Channel-count semantics (claim C4) -/

/-- Channel count of an input looked up in the accumulator of already-typed
nodes (`none` = unknown / not yet created). -/
def chIn (acc : List (Option Nat)) (j : Nat) : Option Nat := (acc[j]?).bind id

/-- Modelled from the spec: the channel-count ("axis 1") semantics of the
operators of the external framework, which is not code of this repository.  A
two-way split on axis 1 halves an even channel count (shape inference fails
on an odd one), `Concat` on axis 1 adds, normalizations and activations
preserve, a convolution outputs its `num_filter`.  Operators whose channel
behaviour the claims never use are left `none`. -/
def chStep (vc : Nat) (acc : List (Option Nat)) (n : Node) : Option Nat :=
  match n.op, n.inputs with
  | .var, _ => some vc
  | .batchNorm _ _ _, [j] => chIn acc j
  | .instanceNorm _, [j] => chIn acc j
  | .activation _, [j] => chIn acc j
  | .splitOut 1 2 _, [j] => (chIn acc j).bind (fun c => if c % 2 = 0 then some (c / 2) else none)
  | .concat 1, [j₁, j₂] =>
      match chIn acc j₁, chIn acc j₂ with
      | some a, some b => some (a + b)
      | _, _ => none
  | .convolution nf _ _ _ _ _ _, _ => some nf
  | _, _ => none

/-- Channel counts of all nodes of a graph, computed creation-order, with
`vc` the channel count of the `data` variable. -/
def channelsList (g : Graph) (vc : Nat) : List (Option Nat) :=
  g.foldl (fun acc n => acc ++ [chStep vc acc n]) []

/-- Channel count of node `i`. -/
def channels (g : Graph) (vc i : Nat) : Option Nat := chIn (channelsList g vc) i

theorem channelsList_foldl_length (L : Graph) (vc : Nat) :
    ∀ acc : List (Option Nat),
      (L.foldl (fun acc n => acc ++ [chStep vc acc n]) acc).length = acc.length + L.length := by
  induction L with
  | nil => intro acc; simp
  | cons n L ih => intro acc; rw [List.foldl_cons, ih]; simp; omega

theorem channelsList_length (g : Graph) (vc : Nat) : (channelsList g vc).length = g.length := by
  rw [channelsList, channelsList_foldl_length]
  simp

theorem channelsList_foldl_extends (L : Graph) (vc : Nat) :
    ∀ acc : List (Option Nat), ∃ rest,
      L.foldl (fun acc n => acc ++ [chStep vc acc n]) acc = acc ++ rest := by
  induction L with
  | nil => intro acc; exact ⟨[], by simp⟩
  | cons n L ih =>
    intro acc
    rcases ih (acc ++ [chStep vc acc n]) with ⟨rest, hrest⟩
    exact ⟨chStep vc acc n :: rest, by rw [List.foldl_cons, hrest]; simp⟩

theorem channelsList_append (g L : Graph) (vc : Nat) :
    channelsList (g ++ L) vc =
      L.foldl (fun acc n => acc ++ [chStep vc acc n]) (channelsList g vc) := by
  rw [channelsList, List.foldl_append, channelsList]

theorem channels_append_lo (g L : Graph) (vc j : Nat) (hj : j < g.length) :
    channels (g ++ L) vc j = channels g vc j := by
  rw [channels, channelsList_append]
  rcases channelsList_foldl_extends L vc (channelsList g vc) with ⟨rest, hrest⟩
  rw [hrest, chIn, List.getElem?_append_left (by rw [channelsList_length]; exact hj), ← chIn]
  rfl

/-! ### Claim theorems -/

/-- Claim C7: graph construction is deterministic: two calls of `resnext` with
equal arguments return identical results (same nodes, operator attributes,
names and connections).  In this embedding `resnext` is a pure function of
exactly the listed arguments — the source reads no ambient mutable state;
auto-naming of anonymous symbols belongs to the external framework. -/
theorem resnext_deterministic (units : List Nat) (num_stage : Nat) (filter_list : List Nat)
    ( num_class num_group : Nat) (data_type : String) (drop_out : ℚ) (ibn bottle_neck : Bool)
    (bn_mom : ℚ) (workspace : Nat) (memonger : Bool) (r₁ r₂ : Except PyError (Graph × Nat))
    (h₁ : resnext units num_stage filter_list num_class num_group data_type drop_out ibn
      bottle_neck bn_mom workspace memonger = r₁)
    (h₂ : resnext units num_stage filter_list num_class num_group data_type drop_out ibn
      bottle_neck bn_mom workspace memonger = r₂) : r₁ = r₂ := by
  rw [← h₁, ← h₂]

/-- Witness for `resnext_deterministic` at a concrete argument list. -/
theorem resnext_deterministic_witness :
    (Except.error PyError.assertionError : Except PyError (Graph × Nat)) =
      Except.error PyError.assertionError :=
  resnext_deterministic [] 1 [] 0 0 "cifar10" 0 false false 0 0 false
    (Except.error PyError.assertionError) (Except.error PyError.assertionError) rfl rfl

/-- Claim C10: `residual_unit` mutates its input symbol — setting
`mirror_stage="True"` on it — exactly when `memonger` and `dim_match` are both
true (the shortcut then aliases the input); for every other combination the
input node is left untouched. -/
theorem residual_unit_memonger_mutation (data num_filter : Nat) (stride : Nat × Nat)
    (dim_match : Bool) (name : String) (ibn bottle_neck : Bool) (num_group : Nat) (bn_mom : ℚ)
    (workspace : Nat) (memonger : Bool) (g : Graph) (hd : data < g.length) :
    (memonger = true ∧ dim_match = true →
      ((residual_unit data num_filter stride dim_match name ibn bottle_neck num_group bn_mom
        workspace memonger g).1)[data]? =
        (g[data]?).map (fun n => { n with mirror_stage := true })) ∧
    (¬(memonger = true ∧ dim_match = true) →
      ((residual_unit data num_filter stride dim_match name ibn bottle_neck num_group bn_mom
        workspace memonger g).1)[data]? = g[data]?) := by
  cases bottle_neck
  case false =>
    rw [ru_eq_nb data num_filter stride dim_match name ibn num_group bn_mom workspace memonger g hd]
    dsimp only
    cases memonger <;> cases dim_match
    · exact ⟨by simp, fun _ => by simp [List.getElem?_append_left hd]⟩
    · exact ⟨by simp, fun _ => by simp [List.getElem?_append_left hd]⟩
    · refine ⟨by simp, fun _ => ?_⟩
      simp only [ite_true, ite_false, Bool.false_eq_true, Bool.true_eq_false, if_false, if_true]
      rw [getElem?_setMirror_ne _ (by omega), List.getElem?_append_left hd]
    · refine ⟨fun _ => ?_, fun hn => absurd ⟨rfl, rfl⟩ hn⟩
      simp only [ite_true, if_true]
      rw [getElem?_setMirror_self, List.getElem?_append_left hd]
  case true =>
    rw [ru_eq_bt data num_filter stride dim_match name ibn num_group bn_mom workspace memonger g hd]
    dsimp only
    cases memonger <;> cases dim_match
    · exact ⟨by simp, fun _ => by simp [List.getElem?_append_left hd]⟩
    · exact ⟨by simp, fun _ => by simp [List.getElem?_append_left hd]⟩
    · refine ⟨by simp, fun _ => ?_⟩
      simp only [ite_true, ite_false, Bool.false_eq_true, Bool.true_eq_false, if_false, if_true]
      rw [getElem?_setMirror_ne _ (by omega), List.getElem?_append_left hd]
    · refine ⟨fun _ => ?_, fun hn => absurd ⟨rfl, rfl⟩ hn⟩
      simp only [ite_true, if_true]
      rw [getElem?_setMirror_self, List.getElem?_append_left hd]

/-- Witness for `residual_unit_memonger_mutation` on a one-node graph. -/
theorem residual_unit_memonger_mutation_witness :
    (true = true ∧ true = true →
      ((residual_unit 0 4 (1,1) true "u" true true 2 (9/10) 8 true
        [{ op := .var, inputs := [], name := some "data" }]).1)[0]? =
        (([{ op := .var, inputs := [], name := some "data" }] : Graph)[0]?).map
          (fun n => { n with mirror_stage := true })) ∧
    (¬(true = true ∧ true = true) →
      ((residual_unit 0 4 (1,1) true "u" true true 2 (9/10) 8 true
        [{ op := .var, inputs := [], name := some "data" }]).1)[0]? =
        ([{ op := .var, inputs := [], name := some "data" }] : Graph)[0]?) :=
  residual_unit_memonger_mutation 0 4 (1,1) true "u" true true 2 (9/10) 8 true
    [{ op := .var, inputs := [], name := some "data" }] (by decide)

/-- Claim C9: in the bottleneck branch, `conv1` (a 1x1 convolution on the
input, at id `g.length`) is created but never consumed by any node of the
resulting graph; the first normalization (ibn split or plain BatchNorm) and
the following ReLU are wired to the raw input `data`, not to `conv1`. -/
theorem residual_unit_conv1_dead (data num_filter : Nat) (stride : Nat × Nat)
    (dim_match : Bool) (name : String) (ibn : Bool) (num_group : Nat) (bn_mom : ℚ)
    (workspace : Nat) (memonger : Bool) (g : Graph) (hc : closedGraph g) (hd : data < g.length) :
    (((residual_unit data num_filter stride dim_match name ibn true num_group bn_mom workspace
        memonger g).1)[g.length]?).map sig =
      some (.convolution (num_filter / 2) 1 (1,1) (1,1) (0,0) true workspace, [data],
        some (name ++ "_conv1")) ∧
    notConsumed (residual_unit data num_filter stride dim_match name ibn true num_group bn_mom
      workspace memonger g).1 g.length ∧
    (ieEff num_filter ibn = true →
      (((residual_unit data num_filter stride dim_match name ibn true num_group bn_mom workspace
          memonger g).1)[g.length + 1]?).map sig = some (.splitOut 1 2 0, [data], none) ∧
      (((residual_unit data num_filter stride dim_match name ibn true num_group bn_mom workspace
          memonger g).1)[g.length + 2]?).map sig = some (.splitOut 1 2 1, [data], none) ∧
      (((residual_unit data num_filter stride dim_match name ibn true num_group bn_mom workspace
          memonger g).1)[g.length + 6]?).map sig =
        some (.activation "relu", [g.length + 5], some (name ++ "_relu1"))) ∧
    (ieEff num_filter ibn = false →
      (((residual_unit data num_filter stride dim_match name ibn true num_group bn_mom workspace
          memonger g).1)[g.length + 1]?).map sig =
        some (.batchNorm false EPS bn_mom, [data], some (name ++ "_bn1")) ∧
      (((residual_unit data num_filter stride dim_match name ibn true num_group bn_mom workspace
          memonger g).1)[g.length + 2]?).map sig =
        some (.activation "relu", [g.length + 1], some (name ++ "_relu1"))) := by
  rw [ru_eq_bt data num_filter stride dim_match name ibn num_group bn_mom workspace memonger g hd]
  dsimp only
  have hsig : ∀ k : Nat,
      (((if memonger = true then
          setMirror (g ++ ruNodesBt data num_filter stride dim_match name (ieEff num_filter ibn)
            num_group bn_mom workspace g.length)
            (if dim_match = true then data
              else g.length + ibnOff (ieEff num_filter ibn) + 8)
        else g ++ ruNodesBt data num_filter stride dim_match name (ieEff num_filter ibn)
          num_group bn_mom workspace g.length) : Graph)[g.length + k]?).map sig =
      ((ruNodesBt data num_filter stride dim_match name (ieEff num_filter ibn)
        num_group bn_mom workspace g.length)[k]?).map sig := by
    intro k
    cases memonger <;>
      simp only [ite_true, ite_false, Bool.false_eq_true, Bool.true_eq_false, if_false, if_true]
    · rw [getq_append]
    · rw [sig_setMirror, getq_append]
  have hnc : notConsumed (g ++ ruNodesBt data num_filter stride dim_match name
      (ieEff num_filter ibn) num_group bn_mom workspace g.length) g.length := by
    apply notConsumed_append
    · intro n hn hy
      exact absurd (hc n hn _ hy) (by omega)
    · intro n hn hy
      rcases ruNodesBt_inputs data num_filter stride dim_match name (ieEff num_filter ibn)
        num_group bn_mom workspace g.length g.length ⟨n, hn, hy⟩ with h1 | h1 <;> omega
  refine ⟨?_, ?_, ?_, ?_⟩
  · have h0 := hsig 0
    simp only [Nat.add_zero] at h0
    rw [h0]
    cases hie : ieEff num_filter ibn <;> simp [ruNodesBt, sig]
  · cases memonger <;>
      simp only [ite_true, ite_false, Bool.false_eq_true, Bool.true_eq_false, if_false, if_true]
    · exact hnc
    · exact notConsumed_setMirror _ _ _ hnc
  · intro hie
    rw [hsig 1, hsig 2, hsig 6]
    simp [ruNodesBt, ibnNodes, ibnOff, hie, sig]
  · intro hie
    rw [hsig 1, hsig 2]
    simp [ruNodesBt, ibnNodes, ibnOff, hie, sig]

/-- Witness for `residual_unit_conv1_dead` on a one-node graph. -/
theorem residual_unit_conv1_dead_witness :
    (((residual_unit 0 4 (1,1) false "u" true true 2 (9/10) 8 false
        [{ op := .var, inputs := [], name := some "data" }]).1)[1]?).map sig =
      some (.convolution 2 1 (1,1) (1,1) (0,0) true 8, [0], some "u_conv1") ∧
    notConsumed (residual_unit 0 4 (1,1) false "u" true true 2 (9/10) 8 false
      [{ op := .var, inputs := [], name := some "data" }]).1 1 := by
  have h := residual_unit_conv1_dead 0 4 (1,1) false "u" true 2 (9/10) 8 false
    [{ op := .var, inputs := [], name := some "data" }] (by decide) (by decide)
  exact ⟨h.1, h.2.1⟩

/-- Claim C4: `ibn_block` splits the channel axis (axis 1) of its input into
exactly two equal halves, applies InstanceNorm to the first and BatchNorm to
the second, and concatenates along the channel axis, so the output channel
count equals the input channel count (`c`, which shape inference requires to
be even). -/
theorem ibn_block_split_structure (data num_filter : Nat) (name : String) (eps bn_mom : ℚ)
    (g : Graph) (vc c : Nat) (hd : data < g.length)
    (hch : channels g vc data = some c) (hev : c % 2 = 0) :
    (((ibn_block data num_filter name eps bn_mom g).1)[g.length]?).map sig =
      some (.splitOut 1 2 0, [data], none) ∧
    (((ibn_block data num_filter name eps bn_mom g).1)[g.length + 1]?).map sig =
      some (.splitOut 1 2 1, [data], none) ∧
    (((ibn_block data num_filter name eps bn_mom g).1)[g.length + 2]?).map sig =
      some (.instanceNorm eps, [g.length], some (name ++ "_in1")) ∧
    (((ibn_block data num_filter name eps bn_mom g).1)[g.length + 3]?).map sig =
      some (.batchNorm false eps bn_mom, [g.length + 1], some (name ++ "_bn1")) ∧
    (((ibn_block data num_filter name eps bn_mom g).1)[g.length + 4]?).map sig =
      some (.concat 1, [g.length + 2, g.length + 3], some (name ++ "_ibn1")) ∧
    (ibn_block data num_filter name eps bn_mom g).2 = g.length + 4 ∧
    channels (ibn_block data num_filter name eps bn_mom g).1 vc (g.length + 2) = some (c / 2) ∧
    channels (ibn_block data num_filter name eps bn_mom g).1 vc (g.length + 3) = some (c / 2) ∧
    channels (ibn_block data num_filter name eps bn_mom g).1 vc
      ((ibn_block data num_filter name eps bn_mom g).2) = some c := by
  rw [ibn_eq]
  dsimp only
  have hlen := channelsList_length g vc
  have hcl : (channelsList g vc)[data]? = some (some c) := by
    rw [channels, chIn] at hch
    cases hx : (channelsList g vc)[data]? with
    | none => rw [hx] at hch; exact absurd hch (by simp)
    | some o =>
      rw [hx] at hch
      simp only [Option.bind, id] at hch
      rw [hch]
  have hget : ∀ (l : List (Option Nat)), (channelsList g vc ++ l)[data]? = some (some c) := by
    intro l
    rw [List.getElem?_append_left (by omega), hcl]
  have hget2 : ∀ (l : List (Option Nat)) (k : Nat),
      (channelsList g vc ++ l)[g.length + k]? = l[k]? := by
    intro l k
    rw [← hlen]
    exact getq_append _ _ _
  have hget0 : ∀ (l : List (Option Nat)), (channelsList g vc ++ l)[g.length]? = l[0]? := by
    intro l
    have := hget2 l 0
    rwa [Nat.add_zero] at this
  have hfold : channelsList (g ++ ibnNodes data name eps bn_mom g.length) vc =
      channelsList g vc ++
        [some (c/2), some (c/2), some (c/2), some (c/2), some (c/2 + c/2)] := by
    rw [channelsList_append]
    simp only [ibnNodes, List.foldl_cons, List.foldl_nil, chStep, chIn, hcl, hget, hget0, hget2,
      List.append_assoc, List.singleton_append, List.cons_append, List.nil_append,
      List.getElem?_cons_zero, List.getElem?_cons_succ, Option.bind, id, hev, if_true, ite_true]
  have hchans : ∀ k : Nat, k < 5 →
      channels (g ++ ibnNodes data name eps bn_mom g.length) vc (g.length + k) =
        [some (c/2), some (c/2), some (c/2), some (c/2), some (c/2 + c/2)][k]?.bind id := by
    intro k hk
    rw [channels, hfold, chIn, hget2]
  have hc2 : c / 2 + c / 2 = c := by omega
  refine ⟨?_, ?_, ?_, ?_, ?_, rfl, ?_, ?_, ?_⟩
  · have h0 : ((g ++ ibnNodes data name eps bn_mom g.length)[g.length]?).map sig =
        ((ibnNodes data name eps bn_mom g.length)[0]?).map sig := by
      have := getq_append g (ibnNodes data name eps bn_mom g.length) 0
      rw [Nat.add_zero] at this
      rw [this]
    rw [h0]; simp [ibnNodes, sig]
  · rw [getq_append]; simp [ibnNodes, sig]
  · rw [getq_append]; simp [ibnNodes, sig]
  · rw [getq_append]; simp [ibnNodes, sig]
  · rw [getq_append]; simp [ibnNodes, sig]
  · have := hchans 2 (by omega); simpa using this
  · have := hchans 3 (by omega); simpa using this
  · have := hchans 4 (by omega); rw [hc2] at this; simpa using this

/-- Witness for `ibn_block_split_structure` on a one-node graph with four
input channels. -/
theorem ibn_block_split_structure_witness :
    channels (ibn_block 0 2 "u" EPS MOM9 [{ op := .var, inputs := [], name := some "data" }]).1
      4 ((ibn_block 0 2 "u" EPS MOM9 [{ op := .var, inputs := [], name := some "data" }]).2) =
      some 4 :=
  (ibn_block_split_structure 0 2 "u" EPS MOM9
    [{ op := .var, inputs := [], name := some "data" }] 4 4 (by decide) (by rfl)
    (by decide)).2.2.2.2.2.2.2.2

/-- Claim C5: every `residual_unit` result is `ReLU(main + shortcut)`: the
returned node is a ReLU on an eltwise add of the last main-branch BatchNorm
and a shortcut, the shortcut is the input itself when `dim_match`, and a
Convolution followed by BatchNorm on the input otherwise; in the bottleneck
case the projection kernel/padding are (3,3)/(1,1) exactly for stride (2,2)
and (1,1)/(0,0) otherwise (non-bottleneck projections are always 1x1). -/
theorem residual_unit_output_form (data num_filter : Nat) (stride : Nat × Nat)
    (dim_match : Bool) (name : String) (ibn bottle_neck : Bool) (num_group : Nat) (bn_mom : ℚ)
    (workspace : Nat) (memonger : Bool) (g : Graph) (hd : data < g.length) :
    ∃ m e sc,
      (((residual_unit data num_filter stride dim_match name ibn bottle_neck num_group bn_mom
          workspace memonger g).1)[(residual_unit data num_filter stride dim_match name ibn
          bottle_neck num_group bn_mom workspace memonger g).2]?).map sig =
        some (.activation "relu", [e], some (name ++ "_relu")) ∧
      (((residual_unit data num_filter stride dim_match name ibn bottle_neck num_group bn_mom
          workspace memonger g).1)[e]?).map sig = some (.add, [m, sc], none) ∧
      (∃ cmain, (((residual_unit data num_filter stride dim_match name ibn bottle_neck num_group
          bn_mom workspace memonger g).1)[m]?).map sig =
        some (.batchNorm false EPS bn_mom, [cmain],
          some (name ++ (if bottle_neck = true then "_bn3" else "_bn2")))) ∧
      (dim_match = true → sc = data) ∧
      (dim_match = false → ∃ scc,
        (((residual_unit data num_filter stride dim_match name ibn bottle_neck num_group bn_mom
            workspace memonger g).1)[sc]?).map sig =
          some (.batchNorm false EPS bn_mom, [scc], some (name ++ "_sc_bn")) ∧
        (((residual_unit data num_filter stride dim_match name ibn bottle_neck num_group bn_mom
            workspace memonger g).1)[scc]?).map sig =
          some (.convolution num_filter 1
            (if bottle_neck = true ∧ stride = (2,2) then (3,3) else (1,1)) stride
            (if bottle_neck = true ∧ stride = (2,2) then (1,1) else (0,0)) true workspace,
            [data], some (name ++ "_sc"))) := by
  cases bottle_neck
  case false =>
    rw [ru_eq_nb data num_filter stride dim_match name ibn num_group bn_mom workspace memonger g hd]
    dsimp only
    have hsig : ∀ k : Nat,
        (((if memonger = true then
            setMirror (g ++ ruNodesNb data num_filter stride dim_match name bn_mom workspace
              g.length) (if dim_match = true then data else g.length + 6)
          else g ++ ruNodesNb data num_filter stride dim_match name bn_mom workspace g.length) :
          Graph)[g.length + k]?).map sig =
        ((ruNodesNb data num_filter stride dim_match name bn_mom workspace g.length)[k]?).map
          sig := by
      intro k
      cases memonger <;>
        simp only [ite_true, ite_false, Bool.false_eq_true, Bool.true_eq_false, if_false, if_true]
      · rw [getq_append]
      · rw [sig_setMirror, getq_append]
    cases dim_match
    · refine ⟨g.length + 4, g.length + 7, g.length + 6, ?_, ?_, ⟨g.length + 3, ?_⟩, by simp,
        fun _ => ⟨g.length + 5, ?_, ?_⟩⟩ <;>
      · simp only [Bool.false_eq_true, if_false, ite_false, eq_self_iff_true, if_true,
          ite_true] at hsig
        simp only [Bool.false_eq_true, if_false, ite_false, eq_self_iff_true, if_true, ite_true]
        rw [hsig]
        simp [ruNodesNb, sig]
    · refine ⟨g.length + 4, g.length + 5, data, ?_, ?_, ⟨g.length + 3, ?_⟩, fun _ => rfl,
        by simp⟩ <;>
      · simp only [Bool.false_eq_true, if_false, ite_false, eq_self_iff_true, if_true,
          ite_true] at hsig
        simp only [Bool.false_eq_true, if_false, ite_false, eq_self_iff_true, if_true, ite_true]
        rw [hsig]
        simp [ruNodesNb, sig]
  case true =>
    rw [ru_eq_bt data num_filter stride dim_match name ibn num_group bn_mom workspace memonger g hd]
    dsimp only
    have hsig : ∀ k : Nat,
        (((if memonger = true then
            setMirror (g ++ ruNodesBt data num_filter stride dim_match name (ieEff num_filter ibn)
              num_group bn_mom workspace g.length)
              (if dim_match = true then data
                else g.length + ibnOff (ieEff num_filter ibn) + 8)
          else g ++ ruNodesBt data num_filter stride dim_match name (ieEff num_filter ibn)
            num_group bn_mom workspace g.length) : Graph)[g.length + k]?).map sig =
        ((ruNodesBt data num_filter stride dim_match name (ieEff num_filter ibn) num_group bn_mom
          workspace g.length)[k]?).map sig := by
      intro k
      cases memonger <;>
        simp only [ite_true, ite_false, Bool.false_eq_true, Bool.true_eq_false, if_false, if_true]
      · rw [getq_append]
      · rw [sig_setMirror, getq_append]
    cases hie : ieEff num_filter ibn <;> cases dim_match
    · refine ⟨g.length + 7, g.length + 10, g.length + 9, ?_, ?_, ⟨g.length + 6, ?_⟩, by simp,
        fun _ => ⟨g.length + 8, ?_, ?_⟩⟩ <;>
      · simp only [hie, ibnOff, Bool.false_eq_true, if_false, ite_false, Nat.add_assoc,
          Nat.reduceAdd, true_and, eq_self_iff_true, if_true, ite_true] at hsig
        simp only [hie, ibnOff, Bool.false_eq_true, if_false, ite_false, Nat.add_assoc,
          Nat.reduceAdd, true_and, eq_self_iff_true, if_true, ite_true]
        rw [hsig]
        simp [ruNodesBt, ibnNodes, ibnOff, sig]
    · refine ⟨g.length + 7, g.length + 8, data, ?_, ?_, ⟨g.length + 6, ?_⟩, fun _ => rfl,
        by simp⟩ <;>
      · simp only [hie, ibnOff, Bool.false_eq_true, if_false, ite_false, Nat.add_assoc,
          Nat.reduceAdd, true_and, eq_self_iff_true, if_true, ite_true] at hsig
        simp only [hie, ibnOff, Bool.false_eq_true, if_false, ite_false, Nat.add_assoc,
          Nat.reduceAdd, true_and, eq_self_iff_true, if_true, ite_true]
        rw [hsig]
        simp [ruNodesBt, ibnNodes, ibnOff, sig]
    · refine ⟨g.length + 11, g.length + 14, g.length + 13, ?_, ?_, ⟨g.length + 10, ?_⟩, by simp,
        fun _ => ⟨g.length + 12, ?_, ?_⟩⟩ <;>
      · simp only [hie, ibnOff, Bool.false_eq_true, if_false, ite_false, Nat.add_assoc,
          Nat.reduceAdd, true_and, eq_self_iff_true, if_true, ite_true] at hsig
        simp only [hie, ibnOff, Bool.false_eq_true, if_false, ite_false, Nat.add_assoc,
          Nat.reduceAdd, true_and, eq_self_iff_true, if_true, ite_true]
        rw [hsig]
        simp [ruNodesBt, ibnNodes, ibnOff, sig]
    · refine ⟨g.length + 11, g.length + 12, data, ?_, ?_, ⟨g.length + 10, ?_⟩, fun _ => rfl,
        by simp⟩ <;>
      · simp only [hie, ibnOff, Bool.false_eq_true, if_false, ite_false, Nat.add_assoc,
          Nat.reduceAdd, true_and, eq_self_iff_true, if_true, ite_true] at hsig
        simp only [hie, ibnOff, Bool.false_eq_true, if_false, ite_false, Nat.add_assoc,
          Nat.reduceAdd, true_and, eq_self_iff_true, if_true, ite_true]
        rw [hsig]
        simp [ruNodesBt, ibnNodes, ibnOff, sig]

/-- Witness for `residual_unit_output_form` on a one-node graph. -/
theorem residual_unit_output_form_witness :
    ∃ m e sc : Nat, (((residual_unit 0 4 (2,2) false "u" true true 2 (9/10) 8 false
        [{ op := .var, inputs := [], name := some "data" }]).1)[e]?).map sig =
      some (.add, [m, sc], none) := by
  obtain ⟨m, e, sc, _, h2, _⟩ := residual_unit_output_form 0 4 (2,2) false "u" true true 2
    (9/10) 8 false [{ op := .var, inputs := [], name := some "data" }] (by decide)
  exact ⟨m, e, sc, h2⟩

/-! ### Claim C3: ibn placement -/

/-- Number of InstanceNorm nodes in a graph (each `ibn_block` contributes
exactly one). -/
def numInstanceNorm (g : Graph) : Nat :=
  (g.filter (fun n => match n.op with | .instanceNorm _ => true | _ => false)).length

/-- Number of residual units in a graph, counted by their unique eltwise-add
node. -/
def numResidualUnits (g : Graph) : Nat := (g.filter (fun n => n.op = Op.add)).length

/-- Counterexample to claim C3 as stated: with the ibn toggle true and
bottleneck unitsof width 2048, the assembled graph contains one residual unit
and no InstanceNorm at all (`num_filter == 2048` silently disables ibn), so
not every residual unit integrates an ibn block. -/
theorem resnext_no_ibn_at_2048 :
    (resnext [1] 1 [4, 2048] 10 2 "cifar10" (1/5) true true (9/10) 4 false).map
        (fun p => (numResidualUnits p.1, numInstanceNorm p.1)) = .ok (1, 0) := by
  rfl

theorem numInstanceNorm_append (g L : Graph) :
    numInstanceNorm (g ++ L) = numInstanceNorm g + numInstanceNorm L := by
  simp [numInstanceNorm, List.filter_append]

theorem map_op_setMirror (g : Graph) (i : Nat) :
    (setMirror g i).map Node.op = g.map Node.op := by
  unfold setMirror
  cases hx : g[i]? with
  | none => rfl
  | some n =>
    rw [List.map_set]
    apply List.ext_getElem?
    intro j
    by_cases hij : i = j
    · subst hij
      have hi : i < g.length := by
        rcases List.getElem?_eq_some_iff.mp hx with ⟨h, _⟩
        exact h
      rw [List.getElem?_set_self (by simpa using hi), List.getElem?_map, hx]
      rfl
    · rw [List.getElem?_set_ne hij]

theorem numInstanceNorm_map_op (g : Graph) :
    numInstanceNorm g =
      ((g.map Node.op).filter
        (fun o => match o with | .instanceNorm _ => true | _ => false)).length := by
  rw [List.filter_map]
  simp only [List.length_map, numInstanceNorm]
  congr 1

theorem numInstanceNorm_setMirror (g : Graph) (i : Nat) :
    numInstanceNorm (setMirror g i) = numInstanceNorm g := by
  rw [numInstanceNorm_map_op, numInstanceNorm_map_op, map_op_setMirror]

theorem ruNodesNb_no_instanceNorm (data num_filter : Nat) (stride : Nat × Nat)
    (dim_match : Bool) (name : String) (bn_mom : ℚ) (workspace : Nat) (base : Nat) :
    numInstanceNorm (ruNodesNb data num_filter stride dim_match name bn_mom workspace base) =
      0 := by
  cases dim_match <;> simp [ruNodesNb, numInstanceNorm]

/-- Claim C3 (amended): in a bottleneck `residual_unit`, when the ibn toggle
is true and the filter width is not 2048, the first normalization is an
`ibn_block` applied to the input of the unit (split, InstanceNorm/BatchNorm,
concat, then ReLU); when the filter width is 2048 — the toggle is silently
discarded — or the toggle is false, the first normalization is a plain
BatchNorm.  In the non-bottleneck branch the ibn toggle is ignored entirely:
the first normalization is a plain BatchNorm on `conv1` and no InstanceNorm
node is created at all.  `resnext` passes its ibn toggle unchanged to every
unit. -/
theorem residual_unit_ibn_placement (data num_filter : Nat) (stride : Nat × Nat)
    (dim_match : Bool) (name : String) (ibn : Bool) (num_group : Nat) (bn_mom : ℚ)
    (workspace : Nat) (memonger : Bool) (g : Graph) (hd : data < g.length) :
    (ibn = true → ¬ num_filter = 2048 →
      (((residual_unit data num_filter stride dim_match name ibn true num_group bn_mom workspace
          memonger g).1)[g.length + 1]?).map sig = some (.splitOut 1 2 0, [data], none) ∧
      (((residual_unit data num_filter stride dim_match name ibn true num_group bn_mom workspace
          memonger g).1)[g.length + 2]?).map sig = some (.splitOut 1 2 1, [data], none) ∧
      (((residual_unit data num_filter stride dim_match name ibn true num_group bn_mom workspace
          memonger g).1)[g.length + 3]?).map sig =
        some (.instanceNorm EPS, [g.length + 1], some (name ++ "_in1")) ∧
      (((residual_unit data num_filter stride dim_match name ibn true num_group bn_mom workspace
          memonger g).1)[g.length + 4]?).map sig =
        some (.batchNorm false EPS MOM9, [g.length + 2], some (name ++ "_bn1")) ∧
      (((residual_unit data num_filter stride dim_match name ibn true num_group bn_mom workspace
          memonger g).1)[g.length + 5]?).map sig =
        some (.concat 1, [g.length + 3, g.length + 4], some (name ++ "_ibn1")) ∧
      (((residual_unit data num_filter stride dim_match name ibn true num_group bn_mom workspace
          memonger g).1)[g.length + 6]?).map sig =
        some (.activation "relu", [g.length + 5], some (name ++ "_relu1"))) ∧
    (num_filter = 2048 ∨ ibn = false →
      (((residual_unit data num_filter stride dim_match name ibn true num_group bn_mom workspace
          memonger g).1)[g.length + 1]?).map sig =
        some (.batchNorm false EPS bn_mom, [data], some (name ++ "_bn1")) ∧
      (((residual_unit data num_filter stride dim_match name ibn true num_group bn_mom workspace
          memonger g).1)[g.length + 2]?).map sig =
        some (.activation "relu", [g.length + 1], some (name ++ "_relu1"))) ∧
    (((residual_unit data num_filter stride dim_match name ibn false num_group bn_mom workspace
        memonger g).1)[g.length + 1]?).map sig =
      some (.batchNorm false EPS bn_mom, [g.length], some (name ++ "_bn1")) ∧
    numInstanceNorm (residual_unit data num_filter stride dim_match name ibn false num_group
      bn_mom workspace memonger g).1 = numInstanceNorm g := by
  rw [ru_eq_bt data num_filter stride dim_match name ibn num_group bn_mom workspace memonger g hd,
    ru_eq_nb data num_filter stride dim_match name ibn num_group bn_mom workspace memonger g hd]
  dsimp only
  have hsig : ∀ k : Nat,
      (((if memonger = true then
          setMirror (g ++ ruNodesBt data num_filter stride dim_match name (ieEff num_filter ibn)
            num_group bn_mom workspace g.length)
            (if dim_match = true then data
              else g.length + ibnOff (ieEff num_filter ibn) + 8)
        else g ++ ruNodesBt data num_filter stride dim_match name (ieEff num_filter ibn)
          num_group bn_mom workspace g.length) : Graph)[g.length + k]?).map sig =
      ((ruNodesBt data num_filter stride dim_match name (ieEff num_filter ibn)
        num_group bn_mom workspace g.length)[k]?).map sig := by
    intro k
    cases memonger <;>
      simp only [ite_true, ite_false, Bool.false_eq_true, Bool.true_eq_false, if_false, if_true]
    · rw [getq_append]
    · rw [sig_setMirror, getq_append]
  have hsignb : ∀ k : Nat,
      (((if memonger = true then
          setMirror (g ++ ruNodesNb data num_filter stride dim_match name bn_mom workspace
            g.length) (if dim_match = true then data else g.length + 6)
        else g ++ ruNodesNb data num_filter stride dim_match name bn_mom workspace g.length) :
        Graph)[g.length + k]?).map sig =
      ((ruNodesNb data num_filter stride dim_match name bn_mom workspace g.length)[k]?).map
        sig := by
    intro k
    cases memonger <;>
      simp only [ite_true, ite_false, Bool.false_eq_true, Bool.true_eq_false, if_false, if_true]
    · rw [getq_append]
    · rw [sig_setMirror, getq_append]
  refine ⟨?_, ?_, ?_, ?_⟩
  · intro hib h48
    have hie : ieEff num_filter ibn = true := by simp [ieEff, h48, hib]
    rw [hsig 1, hsig 2, hsig 3, hsig 4, hsig 5, hsig 6, hie]
    simp [ruNodesBt, ibnNodes, ibnOff, sig]
  · intro hor
    have hie : ieEff num_filter ibn = false := by
      rcases hor with h | h <;> simp [ieEff, h]
    rw [hsig 1, hsig 2, hie]
    simp [ruNodesBt, ibnNodes, ibnOff, sig]
  · rw [hsignb 1]
    simp [ruNodesNb, sig]
  · cases memonger <;>
      simp only [ite_true, ite_false, Bool.false_eq_true, Bool.true_eq_false, if_false, if_true]
    · rw [numInstanceNorm_append, ruNodesNb_no_instanceNorm]
      omega
    · rw [numInstanceNorm_setMirror, numInstanceNorm_append, ruNodesNb_no_instanceNorm]
      omega

/-- Witness for `residual_unit_ibn_placement` on a one-node graph: with the
toggle on and width 4 the first normalization is the ibn split; with width
2048 it is a plain BatchNorm. -/
theorem residual_unit_ibn_placement_witness :
    (((residual_unit 0 4 (1,1) true "u" true true 2 (9/10) 8 false
        [{ op := .var, inputs := [], name := some "data" }]).1)[2]?).map sig =
      some (.splitOut 1 2 0, [0], none) ∧
    (((residual_unit 0 2048 (1,1) true "v" true true 2 (9/10) 8 false
        [{ op := .var, inputs := [], name := some "data" }]).1)[2]?).map sig =
      some (.batchNorm false EPS (9/10), [0], some "v_bn1") ∧
    (((residual_unit 0 4 (1,1) true "w" true false 2 (9/10) 8 false
        [{ op := .var, inputs := [], name := some "data" }]).1)[2]?).map sig =
      some (.batchNorm false EPS (9/10), [1], some "w_bn1") := by
  refine ⟨?_, ?_, ?_⟩
  · exact ((residual_unit_ibn_placement 0 4 (1,1) true "u" true 2 (9/10) 8 false
      [{ op := .var, inputs := [], name := some "data" }] (by decide)).1 rfl (by decide)).1
  · exact ((residual_unit_ibn_placement 0 2048 (1,1) true "v" true 2 (9/10) 8 false
      [{ op := .var, inputs := [], name := some "data" }] (by decide)).2.1 (Or.inl rfl)).1
  · exact (residual_unit_ibn_placement 0 4 (1,1) true "w" true 2 (9/10) 8 false
      [{ op := .var, inputs := [], name := some "data" }] (by decide)).2.2.1

/-- Claim C6: every graph returned by `resnext` is rooted at a SoftmaxOutput
with label-smoothing alpha 0.1, fed by a FullyConnected layer whose output
count is the class-count argument, fed by a Dropout with the supplied
probability, applied to the flattened global average pooling of `b2`, the
body symbol produced by the stage loop — the output of the final stage. -/
theorem resnext_head_structure (units : List Nat) (num_stage : Nat) (filter_list : List Nat)
    ( num_class num_group : Nat) (data_type : String) (drop_out : ℚ) (ibn bottle_neck : Bool)
    (bn_mom : ℚ) (workspace : Nat) (memonger : Bool) (g : Graph) (r : Nat)
    (h : resnext units num_stage filter_list num_class num_group data_type drop_out ibn
      bottle_neck bn_mom workspace memonger = .ok (g, r)) :
    5 ≤ g.length ∧ r = g.length - 1 ∧
    (g[r]?).map sig = some (.softmaxOutput (1/10), [r-1], some "softmax") ∧
    (g[r-1]?).map sig = some (.fullyConnected num_class, [r-2], some "fc1") ∧
    (g[r-2]?).map sig = some (.dropout drop_out, [r-3], some "dp1") ∧
    (g[r-3]?).map sig = some (.flatten, [r-4], none) ∧
    ∃ bg0 g2 b2, stem data_type filter_list bn_mom workspace = .ok bg0 ∧
      (List.range num_stage).foldlM
        (stageStep units filter_list ibn bottle_neck num_group bn_mom workspace memonger) bg0 =
        .ok (g2, b2) ∧
      g = g2 ++ headNodes b2 num_class drop_out g2.length ∧
      (g[r-4]?).map sig =
        some (.pooling true (7,7) (1,1) (0,0) "avg", [b2], some "pool1") := by
  obtain ⟨-, bg0, g2, b2, hstem, hloop, hg, hr⟩ := resnext_ok_cases units num_stage filter_list
    num_class num_group data_type drop_out ibn bottle_neck bn_mom workspace memonger g r h
  subst hg
  subst hr
  have hlen : (g2 ++ headNodes b2 num_class drop_out g2.length).length = g2.length + 5 := by
    simp [headNodes]
  have hget : ∀ k : Nat, (g2 ++ headNodes b2 num_class drop_out g2.length)[g2.length + k]? =
      (headNodes b2 num_class drop_out g2.length)[k]? := fun k => getq_append _ _ _
  refine ⟨by omega, by omega, ?_, ?_, ?_, ?_, ⟨bg0, g2, b2, hstem, hloop, rfl, ?_⟩⟩
  · have h4 := hget 4
    rw [h4]
    simp [headNodes, sig]
  · have h3 := hget 3
    rw [show g2.length + 4 - 1 = g2.length + 3 by omega, h3]
    simp [headNodes, sig]
  · have h2 := hget 2
    rw [show g2.length + 4 - 2 = g2.length + 2 by omega, h2]
    simp [headNodes, sig]
  · have h1 := hget 1
    rw [show g2.length + 4 - 3 = g2.length + 1 by omega, h1]
    simp [headNodes, sig]
  · have h0 := hget 0
    rw [Nat.add_zero] at h0
    rw [show g2.length + 4 - 4 = g2.length by omega, h0]
    simp [headNodes, sig]

/-- Witness for `resnext_head_structure` on a one-stage cifar10 network. -/
theorem resnext_head_structure_witness :
    (resnext [1] 1 [2, 4] 3 1 "cifar10" (1/5) false false (9/10) 4 false).map
      (fun p => ((p.1[p.2]?).map sig).map (fun s => s.1)) =
      .ok (some (Op.softmaxOutput (1/10))) := by
  cases hres : resnext [1] 1 [2, 4] 3 1 "cifar10" (1/5) false false (9/10) 4 false with
  | error e =>
    have hok : (resnext [1] 1 [2, 4] 3 1 "cifar10" (1/5) false false (9/10) 4
        false).toOption.isSome = true := by rfl
    rw [hres] at hok
    simp [Except.toOption] at hok
  | ok p =>
    have h := resnext_head_structure [1] 1 [2, 4] 3 1 "cifar10" (1/5) false false (9/10) 4
      false p.1 p.2 hres
    simp [Except.map, h.2.2.1]

/-! ### Claim C2: stage stacking -/

/-- Counterexample to claim C2 as stated: the configuration
`units = [0], num_stage = 1, cifar10` is valid in the sense of the claim
(`len(units) == num_stage`, supported dataset), yet the assembled graph
contains one residual unit, not `units[0] = 0`: the first unit of every
stage is built unconditionally before the `range(units[i]-1)` loop. -/
theorem resnext_zero_units_stacks_one :
    (resnext [0] 1 [16, 32] 10 8 "cifar10" (1/5) true true (9/10) 4 false).map
      (fun p => numResidualUnits p.1) = .ok 1 ∧
    ¬ (resnext [0] 1 [16, 32] 10 8 "cifar10" (1/5) true true (9/10) 4 false).map
      (fun p => numResidualUnits p.1) = .ok 0 := by
  exact ⟨by rfl, by decide⟩

/-- Claim C2 (amended): under a valid configuration (matching lengths, enough
filter widths, stem succeeded), the stage loop of `resnext` applies
`residual_unit` exactly per `unitSchedule`: stage `i` (0-based) contributes
its configurations `stageCfgs` — `max(units[i], 1)` units, i.e. exactly
`units[i]` whenever `units[i] ≥ 1` — the first with filter
`filter_list[i+1]`, stride (1,1) for stage 0 and (2,2) otherwise and
`dim_match` false, and the remaining ones with stride (1,1) and `dim_match`
true. -/
theorem resnext_unit_schedule (units : List Nat) (num_stage : Nat) (filter_list : List Nat)
    ( num_class num_group : Nat) (data_type : String) (drop_out : ℚ) (ibn bottle_neck : Bool)
    (bn_mom : ℚ) (workspace : Nat) (memonger : Bool)
    (hlen : units.length = num_stage) (hfl : num_stage + 1 ≤ filter_list.length)
    (bg0 : Graph × Nat) (hstem : stem data_type filter_list bn_mom workspace = .ok bg0) :
    resnext units num_stage filter_list num_class num_group data_type drop_out ibn bottle_neck
        bn_mom workspace memonger =
      .ok (headApply
        (List.foldl (applyUnit ibn bottle_neck num_group bn_mom workspace memonger) bg0
          (unitSchedule num_stage units filter_list)) num_class drop_out) ∧
    ∀ i < num_stage, (stageCfgs units filter_list i).length = max (units.getD i 0) 1 := by
  constructor
  · rw [resnext, if_pos hlen, hstem]
    dsimp only
    rw [stageLoop_eq units filter_list ibn bottle_neck num_group bn_mom workspace memonger
      num_stage bg0 (by omega) hfl]
  · intro i _
    simp [stageCfgs]
    omega

/-- Witness for `resnext_unit_schedule` on a concrete two-unit configuration. -/
theorem resnext_unit_schedule_witness :
    resnext [2] 1 [2, 4] 3 1 "cifar10" (1/5) true true (9/10) 4 false =
      .ok (headApply
        (List.foldl (applyUnit true true 1 (9/10) 4 false) (stemCifarNodes 2 (9/10) 4, 2)
          (unitSchedule 1 [2] [2, 4])) 3 (1/5)) :=
  (resnext_unit_schedule [2] 1 [2, 4] 3 1 "cifar10" (1/5) true true (9/10) 4 false rfl
    (by decide) (stemCifarNodes 2 (9/10) 4, 2) (by rfl)).1

/-! ### Claim C1: explicit error paths -/

/-- Does a `resnext` result carry a Python `ValueError`? -/
def isValueErr : Except PyError (Graph × Nat) → Bool
  | .error (.valueError _) => true
  | _ => false

/-- Counterexample to claim C1 as stated: for `data_type = "foo"` (not a
supported dataset) but `units = [], num_stage = 1`, `resnext` raises
AssertionError from `assert(num_unit == num_stage)`, not ValueError — the
assert is a second explicit failure path that also preempts the dataset
check. -/
theorem resnext_assert_preempts_valueerror :
    resnext [] 1 [16] 10 8 "foo" (1/5) true true (9/10) 4 false =
      .error .assertionError ∧
    isValueErr (resnext [] 1 [16] 10 8 "foo" (1/5) true true (9/10) 4 false) = false := by
  exact ⟨by rfl, by rfl⟩

/-- Claim C1 (amended): `resnext` has exactly two explicit failure paths,
checked in this order: AssertionError when `len(units) ≠ num_stage`, and
ValueError `"do not support <data_type> yet"` when the lengths match but the
dataset string is unsupported; for matching lengths, a supported dataset and
at least `num_stage + 1` filter widths it returns a graph.  (Out-of-range
`filter_list` subscripts surface as an implicit IndexError, left to the
runtime.) -/
theorem resnext_explicit_errors (units : List Nat) (num_stage : Nat) (filter_list : List Nat)
    ( num_class num_group : Nat) (data_type : String) (drop_out : ℚ) (ibn bottle_neck : Bool)
    (bn_mom : ℚ) (workspace : Nat) (memonger : Bool) :
    (units.length ≠ num_stage →
      resnext units num_stage filter_list num_class num_group data_type drop_out ibn bottle_neck
        bn_mom workspace memonger = .error .assertionError) ∧
    (units.length = num_stage →
      data_type ∉ (["cifar10", "imagenet", "vggface", "msface"] : List String) →
      resnext units num_stage filter_list num_class num_group data_type drop_out ibn bottle_neck
        bn_mom workspace memonger =
        .error (.valueError ("do not support " ++ data_type ++ " yet"))) ∧
    (units.length = num_stage →
      data_type ∈ (["cifar10", "imagenet", "vggface", "msface"] : List String) →
      num_stage + 1 ≤ filter_list.length →
      ∃ g r, resnext units num_stage filter_list num_class num_group data_type drop_out ibn
        bottle_neck bn_mom workspace memonger = .ok (g, r)) := by
  refine ⟨?_, ?_, ?_⟩
  · intro hne
    rw [resnext, if_neg hne]
  · intro hlen hdt
    simp only [List.mem_cons, List.mem_singleton, List.not_mem_nil] at hdt
    push_neg at hdt
    obtain ⟨h1, h2, h3, h4⟩ := hdt
    rw [resnext, if_pos hlen, stem_unsupported data_type filter_list bn_mom workspace h1 h2 h3
      (by simpa using h4)]
  · intro hlen hdt hfl
    have hfl0 : ∃ f0, filter_list[0]? = some f0 := by
      cases hx : filter_list[0]? with
      | none =>
        rw [List.getElem?_eq_none_iff] at hx
        omega
      | some f0 => exact ⟨f0, rfl⟩
    obtain ⟨f0, hf0⟩ := hfl0
    have hstem : ∃ bg0, stem data_type filter_list bn_mom workspace = .ok bg0 := by
      simp only [List.mem_cons, List.mem_singleton, List.not_mem_nil, or_false] at hdt
      rcases hdt with rfl | rfl | rfl | rfl
      · exact ⟨_, stem_cifar_eq filter_list bn_mom workspace f0 hf0⟩
      · exact ⟨_, stem_large_eq _ filter_list bn_mom workspace f0 (by simp) hf0⟩
      · exact ⟨_, stem_large_eq _ filter_list bn_mom workspace f0 (by simp) hf0⟩
      · exact ⟨_, stem_large_eq _ filter_list bn_mom workspace f0 (by simp) hf0⟩
    obtain ⟨bg0, hstem⟩ := hstem
    refine ⟨(headApply (List.foldl (applyUnit ibn bottle_neck num_group bn_mom workspace memonger)
        bg0 (unitSchedule num_stage units filter_list)) num_class drop_out).1,
      (headApply (List.foldl (applyUnit ibn bottle_neck num_group bn_mom workspace memonger)
        bg0 (unitSchedule num_stage units filter_list)) num_class drop_out).2, ?_⟩
    rw [(resnext_unit_schedule units num_stage filter_list num_class num_group data_type
      drop_out ibn bottle_neck bn_mom workspace memonger hlen hfl bg0 hstem).1]

/-- Witness for `resnext_explicit_errors` at concrete inputs: a length
mismatch asserts, an unsupported dataset raises the formatted ValueError,
and a valid cifar10 configuration succeeds. -/
theorem resnext_explicit_errors_witness :
    resnext [2, 2] 1 [16, 32] 10 8 "cifar10" (1/5) true true (9/10) 4 false =
      .error .assertionError ∧
    resnext [2] 1 [16, 32] 10 8 "svhn" (1/5) true true (9/10) 4 false =
      .error (.valueError "do not support svhn yet") ∧
    ∃ g r, resnext [2] 1 [16, 32] 10 8 "cifar10" (1/5) true true (9/10) 4 false = .ok (g, r) := by
  refine ⟨?_, ?_, ?_⟩
  · exact (resnext_explicit_errors [2, 2] 1 [16, 32] 10 8 "cifar10" (1/5) true true (9/10) 4
      false).1 (by decide)
  · exact (resnext_explicit_errors [2] 1 [16, 32] 10 8 "svhn" (1/5) true true (9/10) 4
      false).2.1 rfl (by decide)
  · exact (resnext_explicit_errors [2] 1 [16, 32] 10 8 "cifar10" (1/5) true true (9/10) 4
      false).2.2 rfl (by decide) (by decide)

/-! ### Claim C8: dead conv01 block in the large stems -/

/-- Loop invariant for claim C8: the first twelve nodes still carry the large
stem operators/inputs/names, node 4 (`relu01`) is consumed nowhere, and the
current body id stays past the stem. -/
def c8Inv (f0 : Nat) (bn_mom : ℚ) (workspace : Nat) (bg : Graph × Nat) : Prop :=
  (∀ j, j < 12 →
    (bg.1[j]?).map sig = ((stemLargeNodes f0 bn_mom workspace)[j]?).map sig) ∧
  notConsumed bg.1 4 ∧ 12 ≤ bg.1.length ∧ 5 < bg.2 ∧ bg.2 < bg.1.length

theorem c8Inv_ru (f0 : Nat) (bn_mom : ℚ) (workspace : Nat) (num_filter : Nat)
    (stride : Nat × Nat) (dim_match : Bool) (name : String) (ibn bottle_neck : Bool)
    (num_group : Nat) (mom' : ℚ) (ws' : Nat) (memonger : Bool) (bg : Graph × Nat)
    (h : c8Inv f0 bn_mom workspace bg) :
    c8Inv f0 bn_mom workspace
      (residual_unit bg.2 num_filter stride dim_match name ibn bottle_neck num_group mom' ws'
        memonger bg.1) := by
  obtain ⟨hsig, hnc, hlen, hb5, hblt⟩ := h
  have hd : bg.2 < bg.1.length := hblt
  refine ⟨?_, ?_, ?_, ?_, ?_⟩
  · intro j hj
    rw [ru_sig_lo bg.2 num_filter stride dim_match name ibn bottle_neck num_group mom' ws'
      memonger bg.1 hd j (by omega)]
    exact hsig j hj
  · exact ru_notConsumed bg.2 num_filter stride dim_match name ibn bottle_neck num_group mom' ws'
      memonger bg.1 hd 4 (by omega) (by omega) hnc
  · exact le_trans hlen (ru_len_ge bg.2 num_filter stride dim_match name ibn bottle_neck
      num_group mom' ws' memonger bg.1 hd)
  · have := ru_snd_ge bg.2 num_filter stride dim_match name ibn bottle_neck num_group mom' ws'
      memonger bg.1 hd
    omega
  · exact ru_snd_lt bg.2 num_filter stride dim_match name ibn bottle_neck num_group mom' ws'
      memonger bg.1 hd

theorem c8Inv_stageStep (units filter_list : List Nat) (ibn bottle_neck : Bool)
    (num_group : Nat) (mom' : ℚ) (ws' : Nat) (memonger : Bool) (f0 : Nat) (bn_mom : ℚ)
    (workspace : Nat) :
    ∀ (bg : Graph × Nat) (i : Nat) (bg' : Graph × Nat), c8Inv f0 bn_mom workspace bg →
      stageStep units filter_list ibn bottle_neck num_group mom' ws' memonger bg i = .ok bg' →
      c8Inv f0 bn_mom workspace bg' := by
  intro bg i bg' hP hs
  rw [stageStep] at hs
  cases hfi : getIdx filter_list (i+1) with
  | error e => rw [hfi] at hs; exact absurd hs (by simp)
  | ok fi =>
    rw [hfi] at hs
    dsimp only at hs
    cases hui : getIdx units i with
    | error e => rw [hui] at hs; exact absurd hs (by simp)
    | ok ui =>
      rw [hui] at hs
      have hP1 : c8Inv f0 bn_mom workspace
          (residual_unit bg.2 fi (if i = 0 then (1,1) else (2,2)) false (unitName (i+1) 1) ibn
            bottle_neck num_group mom' ws' memonger bg.1) :=
        c8Inv_ru f0 bn_mom workspace fi _ false _ ibn bottle_neck num_group mom' ws' memonger
          bg hP
      refine except_foldlM_inv (c8Inv f0 bn_mom workspace) _ ?_ _ _ _ hP1 hs
      intro b a b' hb hstep
      rw [innerStep] at hstep
      cases hfi2 : getIdx filter_list (i+1) with
      | error e => rw [hfi2] at hstep; exact absurd hstep (by simp)
      | ok fi2 =>
        rw [hfi2] at hstep
        simp only [Except.ok.injEq] at hstep
        rw [← hstep]
        exact c8Inv_ru f0 bn_mom workspace fi2 _ true _ ibn bottle_neck num_group mom' ws'
          memonger b hb

theorem stem_large_inv (data_type : String) (filter_list : List Nat) (bn_mom : ℚ)
    (workspace : Nat) (bg0 : Graph × Nat)
    (hdt : data_type = "imagenet" ∨ data_type = "vggface" ∨ data_type = "msface")
    (h : stem data_type filter_list bn_mom workspace = .ok bg0) :
    ∃ f0, filter_list[0]? = some f0 ∧ bg0 = (stemLargeNodes f0 bn_mom workspace, 11) := by
  cases hx : filter_list[0]? with
  | none =>
    rcases hdt with rfl | rfl | rfl <;>
      simp [stem, stemLarge, getIdx, hx] at h
  | some f0 =>
    rw [stem_large_eq data_type filter_list bn_mom workspace f0 hdt hx] at h
    exact ⟨f0, rfl, (Except.ok.inj h).symm⟩

/-- Claim C8: for the `imagenet`, `vggface` and `msface` stems, the first
stem block `conv01 / bn01 / relu01` is dead code: the first twelve nodes of
any graph `resnext` returns are the large stem (in particular `conv02`, node
5, reads `bn_data`, node 1, directly — not `relu01`, node 4 — so the
effective stem is conv02, the stride-2 conv03 and the max pooling), and
the output of node 4 is consumed by no node of the returned graph. -/
theorem resnext_stem_conv01_dead (units : List Nat) (num_stage : Nat) (filter_list : List Nat)
    ( num_class num_group : Nat) (data_type : String) (drop_out : ℚ) (ibn bottle_neck : Bool)
    (bn_mom : ℚ) (workspace : Nat) (memonger : Bool) (g : Graph) (r : Nat)
    (hdt : data_type = "imagenet" ∨ data_type = "vggface" ∨ data_type = "msface")
    (h : resnext units num_stage filter_list num_class num_group data_type drop_out ibn
      bottle_neck bn_mom workspace memonger = .ok (g, r)) :
    ∃ f0, filter_list[0]? = some f0 ∧
      (∀ j, j < 12 →
        (g[j]?).map sig = ((stemLargeNodes f0 bn_mom workspace)[j]?).map sig) ∧
      (g[5]?).map sig =
        some (.convolution f0 1 (3,3) (1,1) (1,1) true workspace, [1], some "conv02") ∧
      (g[4]?).map sig = some (.activation "relu", [3], some "relu01") ∧
      notConsumed g 4 := by
  obtain ⟨-, bg0, g2, b2, hstem, hloop, hg, -⟩ := resnext_ok_cases units num_stage filter_list
    num_class num_group data_type drop_out ibn bottle_neck bn_mom workspace memonger g r h
  obtain ⟨f0, hf0, hbg0⟩ := stem_large_inv data_type filter_list bn_mom workspace bg0 hdt hstem
  subst hbg0
  have hinit : c8Inv f0 bn_mom workspace (stemLargeNodes f0 bn_mom workspace, 11) := by
    refine ⟨fun j _ => rfl, ?_, by simp [stemLargeNodes], by omega, by simp [stemLargeNodes]⟩
    intro n hn
    simp only [stemLargeNodes, List.mem_cons, List.not_mem_nil, or_false] at hn
    rcases hn with rfl | rfl | rfl | rfl | rfl | rfl | rfl | rfl | rfl | rfl | rfl | rfl <;>
      simp
  have hfin : c8Inv f0 bn_mom workspace (g2, b2) :=
    except_foldlM_inv (c8Inv f0 bn_mom workspace) _
      (c8Inv_stageStep units filter_list ibn bottle_neck num_group bn_mom workspace memonger
        f0 bn_mom workspace)
      (List.range num_stage) _ _ hinit hloop
  obtain ⟨hsig, hnc, hlen, hb5, hblt⟩ := hfin
  dsimp only at hsig hnc hlen hb5 hblt
  subst hg
  have hgsig : ∀ j, j < 12 →
      ((g2 ++ headNodes b2 num_class drop_out g2.length)[j]?).map sig =
        ((stemLargeNodes f0 bn_mom workspace)[j]?).map sig := by
    intro j hj
    rw [List.getElem?_append_left (by omega)]
    exact hsig j hj
  refine ⟨f0, hf0, hgsig, ?_, ?_, ?_⟩
  · rw [hgsig 5 (by omega)]
    simp [stemLargeNodes, sig]
  · rw [hgsig 4 (by omega)]
    simp [stemLargeNodes, sig]
  · apply notConsumed_append _ _ _ hnc
    intro n hn
    simp only [headNodes, List.mem_cons, List.not_mem_nil, or_false] at hn
    rcases hn with rfl | rfl | rfl | rfl | rfl <;> simp <;> omega

/-- Witness for `resnext_stem_conv01_dead` on a one-stage imagenet network. -/
theorem resnext_stem_conv01_dead_witness :
    (resnext [1] 1 [2, 4] 3 1 "imagenet" (1/5) false false (9/10) 4 false).map
      (fun p => ((p.1[5]?).map sig).map (fun s => s.2.1)) = .ok (some [1]) := by
  cases hres : resnext [1] 1 [2, 4] 3 1 "imagenet" (1/5) false false (9/10) 4 false with
  | error e =>
    have hok : (resnext [1] 1 [2, 4] 3 1 "imagenet" (1/5) false false (9/10) 4
        false).toOption.isSome = true := by rfl
    rw [hres] at hok
    simp [Except.toOption] at hok
  | ok p =>
    obtain ⟨f0, -, -, h5, -, -⟩ := resnext_stem_conv01_dead [1] 1 [2, 4] 3 1 "imagenet" (1/5)
      false false (9/10) 4 false p.1 p.2 (Or.inl rfl) hres
    simp [Except.map, h5]
